import Mathlib

/-!
# Verification of the Tic-Tac-Toe core engine

Shallow embedding of the game core of `src/tic_tac_toe_frontend/src/App.js`:
win/draw detection (`calculateWinner`), move enumeration
(`getAvailableMoves`), the position evaluator (`evaluate`), the minimax
search (`minimax`), the move selector (`findBestMove`) and the game-session
transitions (`handleMove`, `resetGame`, `handleModeChange`).

The JS code mutates the board in place during search (`squares[move] = p;
... ; squares[move] = null`).  We embed those loops in state-passing style:
every loop takes the board it received and returns the board it leaves
behind, so the restore-on-return discipline of the source is a provable
property (`minimaxS_board_eq`, `findBestMove_board_eq`) instead of an
assumption.  Recursion of `minimax` is made structural with a fuel
parameter; on well-formed boards (9 cells) the recursion depth is bounded
by the number of empty cells, so fuel `10` is never exhausted
(`minimaxS_fuel_irrelevant`).
-/

namespace TicTacToe

/-- The two marks, `PLAYERS.X` and `PLAYERS.O` of `App.js`.  The spec calls
them Mark-A and Mark-B: Mark-A is `X` (moves first), Mark-B is `O`. -/
inductive Player where
  | X : Player
  | O : Player
deriving DecidableEq, Repr

/-- A board is the JS array of 9 squares, each `null` (`none`) or a mark.
Cells are indexed 0–8 in row-major order. -/
abbrev Board := List (Option Player)

/-- `EMPTY_BOARD = Array(9).fill(null)`. -/
def EMPTY_BOARD : Board := List.replicate 9 none

/-- A well-formed board has exactly 9 cells. -/
def wellFormed (squares : Board) : Prop := squares.length = 9

instance : DecidablePred wellFormed := fun squares =>
  inferInstanceAs (Decidable (squares.length = 9))

/-- Reading `squares[i]` for an in-range index (JS indexing; all core code
indexes with results of `getAvailableMoves`, hence in range). -/
def cell (squares : Board) (i : Nat) : Option Player := squares.getD i none

/-- Writing `squares[i] = v`. -/
def setCell (squares : Board) (i : Nat) (v : Option Player) : Board :=
  squares.set i v

/-- The 8 winning lines of `calculateWinner`: 3 rows, 3 columns, 2 diagonals. -/
def lines : List (Nat × Nat × Nat) :=
  [(0, 1, 2), (3, 4, 5), (6, 7, 8),
   (0, 3, 6), (1, 4, 7), (2, 5, 8),
   (0, 4, 8), (2, 4, 6)]

/-- The `for (const [a,b,c] of lines)` loop of `calculateWinner`: return the
mark of the first line whose three cells hold the same non-null mark. -/
def winnerAux (squares : Board) : List (Nat × Nat × Nat) → Option Player
  | [] => none
  | (a, b, c) :: rest =>
    match cell squares a with
    | some v =>
      if cell squares b = some v ∧ cell squares c = some v then some v
      else winnerAux squares rest
    | none => winnerAux squares rest

/-- `calculateWinner(squares)`: the mark completing a line, else `null`. -/
def calculateWinner (squares : Board) : Option Player :=
  winnerAux squares lines

/-- `getAvailableMoves(squares)`: the indices `0 ≤ i < squares.length` with
`squares[i] === null`, in ascending order. -/
def getAvailableMoves (squares : Board) : List Nat :=
  (List.range squares.length).filter (fun i => cell squares i = none)

/-- `opponentOf(player)`. -/
def opponentOf (player : Player) : Player :=
  match player with
  | .X => .O
  | .O => .X

/-- `evaluate(squares, aiPlayer)`: +10 if the AI has won, −10 if the
opponent has won, 0 otherwise. -/
def evaluate (squares : Board) (aiPlayer : Player) : Int :=
  let w := calculateWinner squares
  if w = some aiPlayer then 10
  else if w = some (opponentOf aiPlayer) then -10
  else 0

/-- Stand-in for the JS `-Infinity` initial accumulator.  All minimax
values lie in `[-10 - depth - fuel, 10 + depth + fuel]`
(`minimaxS_fst_bounds`), far inside `(negInf, posInf)`, so `max`/`min`
against these stand-ins behave exactly like against `±Infinity`. -/
def negInf : Int := -1000000

/-- Stand-in for the JS `Infinity` initial accumulator. -/
def posInf : Int := 1000000

/-- The `for (const move of getAvailableMoves(squares))` loop shared by
the two branches of `minimax`: set the cell to `mark`, run the recursive
search `rec` on the mutated board, restore the cell, combine the score
into the accumulator with `comb`.  The maximizing branch instantiates
`mark := aiPlayer`, `comb := max`; the minimizing branch `mark := human`,
`comb := min`.  The board is threaded so that the caller observes exactly
what the JS caller observes after the in-place mutations. -/
def searchLoop (rec : Board → Int × Board) (mark : Player)
    (comb : Int → Int → Int) : List Nat → Board → Int → Int × Board
  | [], squares, best => (best, squares)
  | move :: rest, squares, best =>
    match rec (setCell squares move (some mark)) with
    | (value, b1) =>
      searchLoop rec mark comb rest (setCell b1 move none) (comb best value)

/-- `minimax(squares, depth, isMax, aiPlayer)` in state-passing style: the
second component is the board as the caller observes it after the call
returns (the source mutates `squares` in place and restores it).  The
first argument is fuel making the recursion structural; fuel `0` is never
reached from a well-formed board with fuel `10`. -/
def minimaxS : Nat → Board → Nat → Bool → Player → Int × Board
  | 0, squares, _, _, _ => (0, squares)
  | fuel + 1, squares, depth, isMax, aiPlayer =>
    let score := evaluate squares aiPlayer
    if score = 10 ∨ score = -10 then
      (score - (depth : Int) * score.sign, squares)
    else if (getAvailableMoves squares).length = 0 then
      (0, squares)
    else if isMax then
      searchLoop (fun b => minimaxS fuel b (depth + 1) false aiPlayer)
        aiPlayer max (getAvailableMoves squares) squares negInf
    else
      searchLoop (fun b => minimaxS fuel b (depth + 1) true aiPlayer)
        (opponentOf aiPlayer) min (getAvailableMoves squares) squares posInf

/-- Fuel used by the wrappers: the recursion depth of `minimax` is bounded
by one plus the number of empty cells, at most 10 on a 9-cell board. -/
def FUEL : Nat := 10

/-- `minimax(squares, depth, isMax, aiPlayer)`: the returned score. -/
def minimax (squares : Board) (depth : Nat) (isMax : Bool)
    (aiPlayer : Player) : Int :=
  (minimaxS FUEL squares depth isMax aiPlayer).1

/-- One probe loop of `findBestMove`: place `p` on each available move in
turn, return the first move for which `calculateWinner` yields `p`,
restoring the cell each time.  With `p = aiPlayer` this is the
immediate-win loop; with `p = opponentOf aiPlayer` the immediate-block
loop. -/
def probeLoop (p : Player) : List Nat → Board → Option Nat × Board
  | [], squares => (none, squares)
  | move :: rest, squares =>
    if calculateWinner (setCell squares move (some p)) = some p then
      (some move, setCell (setCell squares move (some p)) move none)
    else probeLoop p rest (setCell (setCell squares move (some p)) move none)

/-- The minimax-fallback loop of `findBestMove`: for each available move,
place the AI mark, score the position with `minimax(squares, 0, false,
aiPlayer)`, restore the cell, and keep the first move whose value is
strictly greater than the best seen. -/
def bestLoop (aiPlayer : Player) :
    List Nat → Board → Int → Nat → Nat × Board
  | [], squares, _, bestMove => (bestMove, squares)
  | move :: rest, squares, bestVal, bestMove =>
    match minimaxS FUEL (setCell squares move (some aiPlayer)) 0 false aiPlayer with
    | (moveVal, b1) =>
      if moveVal > bestVal then
        bestLoop aiPlayer rest (setCell b1 move none) moveVal move
      else
        bestLoop aiPlayer rest (setCell b1 move none) bestVal bestMove

/-- `findBestMove(squares, aiPlayer)` in state-passing style: the first
component is the returned move (`null` = `none` when the board is full),
the second the board the caller observes afterwards. -/
def findBestMove (squares : Board) (aiPlayer : Player) :
    Option Nat × Board :=
  let avail := getAvailableMoves squares
  if avail.length = 0 then (none, squares)
  else
    match probeLoop aiPlayer avail squares with
    | (some move, b) => (some move, b)
    | (none, b) =>
      match probeLoop (opponentOf aiPlayer) avail b with
      | (some move, b') => (some move, b')
      | (none, b') => Prod.map some id (bestLoop aiPlayer avail b' negInf (avail.headD 0))

/-- The spec's `selectMove(board, aiMark)`: the move `findBestMove`
returns. -/
def selectMove (squares : Board) (aiPlayer : Player) : Option Nat :=
  (findBestMove squares aiPlayer).1

/-! ## Game session (the `App` component state and transitions) -/

/-- The `winner` state variable of `App`: `'X' | 'O' | 'draw' | null`,
modelled as `Option Outcome` with `null = none`. -/
inductive Outcome where
  | mark : Player → Outcome
  | draw : Outcome
deriving DecidableEq, Repr

/-- `MODES = { PVP: 'pvp', AI: 'ai' }`. -/
inductive Mode where
  | pvp : Mode
  | ai : Mode
deriving DecidableEq, Repr

/-- The game-relevant component state of `App`: `mode`, `board`,
`xIsNext`, `winner` (theme state is presentation-only and omitted). -/
structure AppState where
  mode : Mode
  board : Board
  xIsNext : Bool
  winner : Option Outcome
deriving DecidableEq, Repr

/-- `currentPlayer = xIsNext ? PLAYERS.X : PLAYERS.O`. -/
def currentPlayer (s : AppState) : Player :=
  if s.xIsNext then .X else .O

/-- `gameOver = Boolean(winner)`. -/
def gameOver (s : AppState) : Bool := s.winner.isSome

/-- The `useEffect` on `[board]`: recompute `winner` from the board
(`calculateWinner`, else `'draw'` when every square is filled, else leave
it unchanged). -/
def updateOutcome (s : AppState) : AppState :=
  match calculateWinner s.board with
  | some w => { s with winner := some (Outcome.mark w) }
  | none =>
    if s.board.all (fun c => c.isSome) then { s with winner := some Outcome.draw }
    else s

/-- `handleMove(index)`: rejected (state unchanged) when the game is over
or `board[index] !== null` (an out-of-range index reads `undefined`, which
is `!== null`, hence also rejected); otherwise place the current player's
mark, flip the turn, and let the effect recompute the outcome. -/
def handleMove (s : AppState) (index : Nat) : AppState :=
  if gameOver s = true ∨ s.board.get? index ≠ some none then s
  else
    updateOutcome
      { s with
        board := setCell s.board index (some (currentPlayer s)),
        xIsNext := !s.xIsNext }

/-- `resetGame()`: empty board, X to move, no winner. -/
def resetGame (s : AppState) : AppState :=
  { s with board := EMPTY_BOARD, xIsNext := true, winner := none }

/-- `handleModeChange(newMode)`: set the mode, then reset. -/
def handleModeChange (s : AppState) (newMode : Mode) : AppState :=
  resetGame { s with mode := newMode }

/-- The initial component state: PvP mode, empty board, X first, no
winner. -/
def initialState : AppState :=
  { mode := .pvp, board := EMPTY_BOARD, xIsNext := true, winner := none }

/-- The AI `useEffect`: fires only in AI mode, when the game is not over
and it is O's turn (`aiPlaysAs = PLAYERS.O`; the human is X); it asks
`findBestMove(board, PLAYERS.O)` and applies the move if non-null. -/
def aiStep (s : AppState) : AppState :=
  match selectMove s.board Player.O with
  | some move => handleMove s move
  | none => s

/-- The states a session can reach: the initial state, closed under cell
clicks, the AI effect (under its firing condition), restart and mode
change. -/
inductive Reachable : AppState → Prop where
  | init : Reachable initialState
  | click (s : AppState) (i : Nat) : Reachable s → Reachable (handleMove s i)
  | ai (s : AppState) : Reachable s → s.mode = Mode.ai → s.winner = none →
      currentPlayer s = Player.O → Reachable (aiStep s)
  | reset (s : AppState) : Reachable s → Reachable (resetGame s)
  | modeChange (s : AppState) (m : Mode) : Reachable s →
      Reachable (handleModeChange s m)

/-! ## Self-play driver for the optimal-play property -/

/-- A board is terminal when someone has won or no cell is empty (the
session's `Won`/`Draw` conditions, derived from the board). -/
def gameOverBoard (b : Board) : Bool :=
  (calculateWinner b).isSome || b.all (fun c => c.isSome)

/-- Play the engine against itself: starting from `b` with `p` to move,
repeatedly apply the move `selectMove` returns for the player to move,
until the game is terminal (fuel-bounded; 9 steps fill the board). -/
def selfPlay : Nat → Board → Player → Board
  | 0, b, _ => b
  | n + 1, b, p =>
    if gameOverBoard b then b
    else
      match selectMove b p with
      | none => b
      | some m => selfPlay n (setCell b m (some p)) (opponentOf p)

/-! ## Minimax bound certificates

Kernel evaluation of the full game-tree search (about 550000 nodes) is
infeasible, so the self-play claim below is settled through
certificates: a `Cert` is a strategy skeleton — at nodes of the player
the bound quantifies over it enumerates every available move, at the
other player's nodes it commits to one reply — and `checkUB`/`checkLB`
verify by direct evaluation of `calculateWinner` and
`getAvailableMoves` that the skeleton establishes an upper (lower)
bound on the minimax value.  `checkUB_sound` and `checkLB_sound`
(below) prove the checkers correct against `minimaxS` itself; the
concrete certificates `certP0U0`, … were computed offline and every one
is re-checked here by `rfl`. -/

inductive Cert where
  | leaf : Cert
  | pick : Nat → Cert → Cert
  | branch : List Cert → Cert

/-- Check the certificates `cs` against the moves `ms` pointwise: each
move is played (placing `mark`) and the resulting board is checked
against the matching certificate. -/
def certsFold (chk : Cert → Board → Bool) :
    List Cert → List Nat → Board → Player → Bool
  | [], [], _, _ => true
  | c :: cs, m :: ms, b, mark =>
    chk c (setCell b m (some mark)) && certsFold chk cs ms b mark
  | _, _, _, _ => false

/-- Dispatch on a `pick` certificate: the committed reply `mv` must be a
legal move, and the board with `mark` placed there must pass the
continuation check. -/
def pickCheck (chk : Cert → Board → Bool) (b : Board) (mark : Player) :
    Cert → Bool
  | Cert.pick mv c2 =>
    decide (b.get? mv = some none) && chk c2 (setCell b mv (some mark))
  | _ => false

/-- Dispatch on a `branch` certificate: the side condition `ok` must
hold and the sub-certificates must cover the moves `av` pointwise. -/
def branchCheck (chk : Cert → Board → Bool) (av : List Nat) (b : Board)
    (mark : Player) (ok : Bool) : Cert → Bool
  | Cert.branch cs => ok && certsFold chk cs av b mark
  | _ => false

/-- Certificate checker for the upper bound
`(minimaxS fuel b d isMax ai).1 ≤ v`: at a maximizing node every
available move must be covered (`branch`, aligned with
`getAvailableMoves`), at a minimizing node a single refutation reply
(`pick`) suffices. -/
def checkUB : Nat → Cert → Board → Nat → Bool → Player → Int → Bool
  | 0, _, _, _, _, _, _ => false
  | fuel + 1, c, b, d, isMax, ai, v =>
    match calculateWinner b with
    | some w => decide ((if w = ai then 10 - (d : Int) else -10 + (d : Int)) ≤ v)
    | none =>
      match getAvailableMoves b with
      | [] => decide ((0 : Int) ≤ v)
      | m :: rest =>
        if isMax then
          branchCheck (fun c2 b2 => checkUB fuel c2 b2 (d + 1) false ai v)
            (m :: rest) b ai (decide (negInf ≤ v)) c
        else
          pickCheck (fun c2 b2 => checkUB fuel c2 b2 (d + 1) true ai v)
            b (opponentOf ai) c

/-- Certificate checker for the lower bound
`v ≤ (minimaxS fuel b d isMax ai).1`: dual to `checkUB`. -/
def checkLB : Nat → Cert → Board → Nat → Bool → Player → Int → Bool
  | 0, _, _, _, _, _, _ => false
  | fuel + 1, c, b, d, isMax, ai, v =>
    match calculateWinner b with
    | some w => decide (v ≤ (if w = ai then 10 - (d : Int) else -10 + (d : Int)))
    | none =>
      match getAvailableMoves b with
      | [] => decide (v ≤ (0 : Int))
      | m :: rest =>
        if isMax then
          pickCheck (fun c2 b2 => checkLB fuel c2 b2 (d + 1) false ai v)
            b ai c
        else
          branchCheck (fun c2 b2 => checkLB fuel c2 b2 (d + 1) true ai v)
            (m :: rest) b (opponentOf ai) (decide (v ≤ posInf)) c

/-! The successive boards of the engine's self-play game (the moves are
derived one ply at a time in the proof of `selfPlay_draw` below). -/

def plyB1 : Board :=
  [some Player.X, none, none, none, none, none, none, none, none]

def plyB2 : Board :=
  [some Player.X, none, none, none, some Player.O, none, none, none, none]

def plyB3 : Board :=
  [some Player.X, some Player.X, none, none, some Player.O, none, none, none, none]

def plyB4 : Board :=
  [some Player.X, some Player.X, some Player.O, none, some Player.O, none, none, none, none]

def plyB5 : Board :=
  [some Player.X, some Player.X, some Player.O, none, some Player.O, none, some Player.X, none, none]

def plyB6 : Board :=
  [some Player.X, some Player.X, some Player.O, some Player.O, some Player.O, none, some Player.X, none, none]

def plyB7 : Board :=
  [some Player.X, some Player.X, some Player.O, some Player.O, some Player.O, some Player.X, some Player.X, none, none]

def plyB8 : Board :=
  [some Player.X, some Player.X, some Player.O, some Player.O, some Player.O, some Player.X, some Player.X, some Player.O, none]

def plyB9 : Board :=
  [some Player.X, some Player.X, some Player.O, some Player.O, some Player.O, some Player.X, some Player.X, some Player.O, some Player.X]

/-! The offline-computed certificates.  `certP<i>U<k>` bounds from above
the value of playing cell `k` on the ply-`i` board; `certP<i>L<k>`
bounds it from below. -/

def certP0U0 : Cert :=
  (Cert.pick 4 (Cert.branch [(Cert.pick 2 (Cert.branch [(Cert.pick 6 Cert.leaf), (Cert.pick 6 Cert.leaf), (Cert.pick 3 (Cert.branch [(Cert.pick 7 (Cert.branch [Cert.leaf])), (Cert.pick 5 Cert.leaf), (Cert.pick 5 Cert.leaf)])), (Cert.pick 6 Cert.leaf), (Cert.pick 6 Cert.leaf)])), (Cert.pick 1 (Cert.branch [(Cert.pick 7 Cert.leaf), (Cert.pick 7 Cert.leaf), (Cert.pick 7 Cert.leaf), (Cert.pick 3 (Cert.branch [(Cert.pick 8 (Cert.branch [Cert.leaf])), (Cert.pick 5 Cert.leaf), (Cert.pick 5 Cert.leaf)])), (Cert.pick 7 Cert.leaf)])), (Cert.pick 6 (Cert.branch [(Cert.pick 2 Cert.leaf), (Cert.pick 1 (Cert.branch [(Cert.pick 7 Cert.leaf), (Cert.pick 5 (Cert.branch [Cert.leaf])), (Cert.pick 7 Cert.leaf)])), (Cert.pick 2 Cert.leaf), (Cert.pick 2 Cert.leaf), (Cert.pick 2 Cert.leaf)])), (Cert.pick 1 (Cert.branch [(Cert.pick 7 Cert.leaf), (Cert.pick 7 Cert.leaf), (Cert.pick 7 Cert.leaf), (Cert.pick 6 (Cert.branch [(Cert.pick 8 (Cert.branch [Cert.leaf])), (Cert.pick 2 Cert.leaf), (Cert.pick 2 Cert.leaf)])), (Cert.pick 7 Cert.leaf)])), (Cert.pick 3 (Cert.branch [(Cert.pick 5 Cert.leaf), (Cert.pick 5 Cert.leaf), (Cert.pick 1 (Cert.branch [(Cert.pick 7 Cert.leaf), (Cert.pick 8 (Cert.branch [Cert.leaf])), (Cert.pick 7 Cert.leaf)])), (Cert.pick 5 Cert.leaf), (Cert.pick 5 Cert.leaf)])), (Cert.pick 3 (Cert.branch [(Cert.pick 5 Cert.leaf), (Cert.pick 5 Cert.leaf), (Cert.pick 2 (Cert.branch [(Cert.pick 6 Cert.leaf), (Cert.pick 8 (Cert.branch [Cert.leaf])), (Cert.pick 6 Cert.leaf)])), (Cert.pick 5 Cert.leaf), (Cert.pick 5 Cert.leaf)])), (Cert.pick 1 (Cert.branch [(Cert.pick 7 Cert.leaf), (Cert.pick 7 Cert.leaf), (Cert.pick 7 Cert.leaf), (Cert.pick 7 Cert.leaf), (Cert.pick 6 (Cert.branch [(Cert.pick 5 (Cert.branch [Cert.leaf])), (Cert.pick 2 Cert.leaf), (Cert.pick 2 Cert.leaf)]))]))]))

def certP0L0 : Cert :=
  (Cert.branch [(Cert.pick 3 (Cert.branch [(Cert.pick 6 Cert.leaf), (Cert.pick 6 Cert.leaf), (Cert.pick 6 Cert.leaf), (Cert.pick 4 (Cert.branch [(Cert.pick 5 Cert.leaf), (Cert.pick 8 Cert.leaf), (Cert.pick 5 Cert.leaf), (Cert.pick 5 Cert.leaf)])), (Cert.pick 6 Cert.leaf), (Cert.pick 6 Cert.leaf)])), (Cert.pick 3 (Cert.branch [(Cert.pick 6 Cert.leaf), (Cert.pick 6 Cert.leaf), (Cert.pick 6 Cert.leaf), (Cert.pick 4 (Cert.branch [(Cert.pick 5 Cert.leaf), (Cert.pick 8 Cert.leaf), (Cert.pick 5 Cert.leaf), (Cert.pick 5 Cert.leaf)])), (Cert.pick 6 Cert.leaf), (Cert.pick 6 Cert.leaf)])), (Cert.pick 1 (Cert.branch [(Cert.pick 4 (Cert.branch [(Cert.pick 7 Cert.leaf), (Cert.pick 7 Cert.leaf), (Cert.pick 8 Cert.leaf), (Cert.pick 7 Cert.leaf)])), (Cert.pick 2 Cert.leaf), (Cert.pick 2 Cert.leaf), (Cert.pick 2 Cert.leaf), (Cert.pick 2 Cert.leaf), (Cert.pick 2 Cert.leaf)])), (Cert.pick 1 (Cert.branch [(Cert.pick 6 (Cert.branch [(Cert.pick 5 (Cert.branch [(Cert.pick 8 Cert.leaf), (Cert.pick 7 Cert.leaf)])), (Cert.pick 3 Cert.leaf), (Cert.pick 3 Cert.leaf), (Cert.pick 3 Cert.leaf)])), (Cert.pick 2 Cert.leaf), (Cert.pick 2 Cert.leaf), (Cert.pick 2 Cert.leaf), (Cert.pick 2 Cert.leaf), (Cert.pick 2 Cert.leaf)])), (Cert.pick 2 (Cert.branch [(Cert.pick 4 (Cert.branch [(Cert.pick 6 Cert.leaf), (Cert.pick 8 Cert.leaf), (Cert.pick 6 Cert.leaf), (Cert.pick 6 Cert.leaf)])), (Cert.pick 1 Cert.leaf), (Cert.pick 1 Cert.leaf), (Cert.pick 1 Cert.leaf), (Cert.pick 1 Cert.leaf), (Cert.pick 1 Cert.leaf)])), (Cert.pick 1 (Cert.branch [(Cert.pick 4 (Cert.branch [(Cert.pick 7 Cert.leaf), (Cert.pick 7 Cert.leaf), (Cert.pick 8 Cert.leaf), (Cert.pick 7 Cert.leaf)])), (Cert.pick 2 Cert.leaf), (Cert.pick 2 Cert.leaf), (Cert.pick 2 Cert.leaf), (Cert.pick 2 Cert.leaf), (Cert.pick 2 Cert.leaf)])), (Cert.pick 2 (Cert.branch [(Cert.pick 4 (Cert.branch [(Cert.pick 6 Cert.leaf), (Cert.pick 6 Cert.leaf), (Cert.pick 8 Cert.leaf), (Cert.pick 6 Cert.leaf)])), (Cert.pick 1 Cert.leaf), (Cert.pick 1 Cert.leaf), (Cert.pick 1 Cert.leaf), (Cert.pick 1 Cert.leaf), (Cert.pick 1 Cert.leaf)])), (Cert.pick 2 (Cert.branch [(Cert.pick 6 (Cert.branch [(Cert.pick 4 Cert.leaf), (Cert.pick 3 Cert.leaf), (Cert.pick 3 Cert.leaf), (Cert.pick 3 Cert.leaf)])), (Cert.pick 1 Cert.leaf), (Cert.pick 1 Cert.leaf), (Cert.pick 1 Cert.leaf), (Cert.pick 1 Cert.leaf), (Cert.pick 1 Cert.leaf)]))])

def certP0U1 : Cert :=
  (Cert.pick 0 (Cert.branch [(Cert.pick 3 (Cert.branch [(Cert.pick 6 Cert.leaf), (Cert.pick 6 Cert.leaf), (Cert.pick 4 (Cert.branch [(Cert.pick 8 Cert.leaf), (Cert.pick 5 Cert.leaf), (Cert.pick 5 Cert.leaf)])), (Cert.pick 6 Cert.leaf), (Cert.pick 6 Cert.leaf)])), (Cert.pick 4 (Cert.branch [(Cert.pick 8 Cert.leaf), (Cert.pick 8 Cert.leaf), (Cert.pick 8 Cert.leaf), (Cert.pick 8 Cert.leaf), (Cert.pick 2 (Cert.branch [(Cert.pick 6 Cert.leaf), (Cert.pick 7 (Cert.branch [Cert.leaf])), (Cert.pick 6 Cert.leaf)]))])), (Cert.pick 7 (Cert.branch [(Cert.pick 6 (Cert.branch [(Cert.pick 8 Cert.leaf), (Cert.pick 3 Cert.leaf), (Cert.pick 3 Cert.leaf)])), (Cert.pick 5 (Cert.branch [(Cert.pick 6 (Cert.branch [Cert.leaf])), (Cert.pick 2 (Cert.branch [Cert.leaf])), (Cert.pick 2 (Cert.branch [Cert.leaf]))])), (Cert.pick 3 (Cert.branch [(Cert.pick 6 Cert.leaf), (Cert.pick 2 (Cert.branch [Cert.leaf])), (Cert.pick 6 Cert.leaf)])), (Cert.pick 2 (Cert.branch [(Cert.pick 5 (Cert.branch [Cert.leaf])), (Cert.pick 3 (Cert.branch [Cert.leaf])), (Cert.pick 3 (Cert.branch [Cert.leaf]))])), (Cert.pick 2 (Cert.branch [(Cert.pick 5 (Cert.branch [Cert.leaf])), (Cert.pick 3 (Cert.branch [Cert.leaf])), (Cert.pick 3 (Cert.branch [Cert.leaf]))]))])), (Cert.pick 6 (Cert.branch [(Cert.pick 3 Cert.leaf), (Cert.pick 4 (Cert.branch [(Cert.pick 8 Cert.leaf), (Cert.pick 2 Cert.leaf), (Cert.pick 2 Cert.leaf)])), (Cert.pick 3 Cert.leaf), (Cert.pick 3 Cert.leaf), (Cert.pick 3 Cert.leaf)])), (Cert.pick 4 (Cert.branch [(Cert.pick 8 Cert.leaf), (Cert.pick 8 Cert.leaf), (Cert.pick 8 Cert.leaf), (Cert.pick 8 Cert.leaf), (Cert.pick 7 (Cert.branch [(Cert.pick 5 (Cert.branch [Cert.leaf])), (Cert.pick 2 (Cert.branch [Cert.leaf])), (Cert.pick 2 (Cert.branch [Cert.leaf]))]))])), (Cert.pick 4 (Cert.branch [(Cert.pick 8 Cert.leaf), (Cert.pick 8 Cert.leaf), (Cert.pick 8 Cert.leaf), (Cert.pick 8 Cert.leaf), (Cert.pick 6 (Cert.branch [(Cert.pick 3 Cert.leaf), (Cert.pick 2 Cert.leaf), (Cert.pick 2 Cert.leaf)]))])), (Cert.pick 4 (Cert.branch [(Cert.pick 5 (Cert.branch [(Cert.pick 6 (Cert.branch [Cert.leaf])), (Cert.pick 3 Cert.leaf), (Cert.pick 3 Cert.leaf)])), (Cert.pick 2 (Cert.branch [(Cert.pick 6 Cert.leaf), (Cert.pick 7 (Cert.branch [Cert.leaf])), (Cert.pick 6 Cert.leaf)])), (Cert.pick 2 (Cert.branch [(Cert.pick 6 Cert.leaf), (Cert.pick 7 (Cert.branch [Cert.leaf])), (Cert.pick 6 Cert.leaf)])), (Cert.pick 7 (Cert.branch [(Cert.pick 5 (Cert.branch [Cert.leaf])), (Cert.pick 2 (Cert.branch [Cert.leaf])), (Cert.pick 2 (Cert.branch [Cert.leaf]))])), (Cert.pick 6 (Cert.branch [(Cert.pick 3 Cert.leaf), (Cert.pick 2 Cert.leaf), (Cert.pick 2 Cert.leaf)]))]))]))

def certP0U2 : Cert :=
  (Cert.pick 4 (Cert.branch [(Cert.pick 1 (Cert.branch [(Cert.pick 7 Cert.leaf), (Cert.pick 7 Cert.leaf), (Cert.pick 7 Cert.leaf), (Cert.pick 3 (Cert.branch [(Cert.pick 8 (Cert.branch [Cert.leaf])), (Cert.pick 5 Cert.leaf), (Cert.pick 5 Cert.leaf)])), (Cert.pick 7 Cert.leaf)])), (Cert.pick 0 (Cert.branch [(Cert.pick 8 Cert.leaf), (Cert.pick 8 Cert.leaf), (Cert.pick 8 Cert.leaf), (Cert.pick 8 Cert.leaf), (Cert.pick 5 (Cert.branch [(Cert.pick 6 (Cert.branch [Cert.leaf])), (Cert.pick 3 Cert.leaf), (Cert.pick 3 Cert.leaf)]))])), (Cert.pick 0 (Cert.branch [(Cert.pick 8 Cert.leaf), (Cert.pick 8 Cert.leaf), (Cert.pick 8 Cert.leaf), (Cert.pick 8 Cert.leaf), (Cert.pick 5 (Cert.branch [(Cert.pick 6 (Cert.branch [Cert.leaf])), (Cert.pick 7 (Cert.branch [Cert.leaf])), (Cert.pick 6 (Cert.branch [Cert.leaf]))]))])), (Cert.pick 8 (Cert.branch [(Cert.pick 1 (Cert.branch [(Cert.pick 7 Cert.leaf), (Cert.pick 7 Cert.leaf), (Cert.pick 3 (Cert.branch [Cert.leaf]))])), (Cert.pick 0 Cert.leaf), (Cert.pick 0 Cert.leaf), (Cert.pick 0 Cert.leaf), (Cert.pick 0 Cert.leaf)])), (Cert.pick 1 (Cert.branch [(Cert.pick 7 Cert.leaf), (Cert.pick 7 Cert.leaf), (Cert.pick 7 Cert.leaf), (Cert.pick 8 (Cert.branch [(Cert.pick 3 (Cert.branch [Cert.leaf])), (Cert.pick 0 Cert.leaf), (Cert.pick 0 Cert.leaf)])), (Cert.pick 7 Cert.leaf)])), (Cert.pick 3 (Cert.branch [(Cert.pick 5 Cert.leaf), (Cert.pick 5 Cert.leaf), (Cert.pick 8 (Cert.branch [(Cert.pick 1 (Cert.branch [Cert.leaf])), (Cert.pick 0 Cert.leaf), (Cert.pick 0 Cert.leaf)])), (Cert.pick 5 Cert.leaf), (Cert.pick 5 Cert.leaf)])), (Cert.pick 5 (Cert.branch [(Cert.pick 3 Cert.leaf), (Cert.pick 3 Cert.leaf), (Cert.pick 0 (Cert.branch [(Cert.pick 6 (Cert.branch [Cert.leaf])), (Cert.pick 7 (Cert.branch [Cert.leaf])), (Cert.pick 6 (Cert.branch [Cert.leaf]))])), (Cert.pick 3 Cert.leaf), (Cert.pick 3 Cert.leaf)]))]))

def certP0U3 : Cert :=
  (Cert.pick 0 (Cert.branch [(Cert.pick 4 (Cert.branch [(Cert.pick 8 Cert.leaf), (Cert.pick 8 Cert.leaf), (Cert.pick 8 Cert.leaf), (Cert.pick 8 Cert.leaf), (Cert.pick 2 (Cert.branch [(Cert.pick 6 Cert.leaf), (Cert.pick 7 (Cert.branch [Cert.leaf])), (Cert.pick 6 Cert.leaf)]))])), (Cert.pick 4 (Cert.branch [(Cert.pick 8 Cert.leaf), (Cert.pick 8 Cert.leaf), (Cert.pick 8 Cert.leaf), (Cert.pick 8 Cert.leaf), (Cert.pick 5 (Cert.branch [(Cert.pick 6 (Cert.branch [Cert.leaf])), (Cert.pick 7 (Cert.branch [Cert.leaf])), (Cert.pick 6 (Cert.branch [Cert.leaf]))]))])), (Cert.pick 5 (Cert.branch [(Cert.pick 7 (Cert.branch [(Cert.pick 6 (Cert.branch [Cert.leaf])), (Cert.pick 2 (Cert.branch [Cert.leaf])), (Cert.pick 2 (Cert.branch [Cert.leaf]))])), (Cert.pick 6 (Cert.branch [(Cert.pick 7 (Cert.branch [Cert.leaf])), (Cert.pick 1 (Cert.branch [Cert.leaf])), (Cert.pick 1 (Cert.branch [Cert.leaf]))])), (Cert.pick 2 (Cert.branch [(Cert.pick 8 Cert.leaf), (Cert.pick 1 Cert.leaf), (Cert.pick 1 Cert.leaf)])), (Cert.pick 1 (Cert.branch [(Cert.pick 6 (Cert.branch [Cert.leaf])), (Cert.pick 2 Cert.leaf), (Cert.pick 2 Cert.leaf)])), (Cert.pick 1 (Cert.branch [(Cert.pick 6 (Cert.branch [Cert.leaf])), (Cert.pick 2 Cert.leaf), (Cert.pick 2 Cert.leaf)]))])), (Cert.pick 4 (Cert.branch [(Cert.pick 8 Cert.leaf), (Cert.pick 8 Cert.leaf), (Cert.pick 8 Cert.leaf), (Cert.pick 8 Cert.leaf), (Cert.pick 2 (Cert.branch [(Cert.pick 6 Cert.leaf), (Cert.pick 1 Cert.leaf), (Cert.pick 1 Cert.leaf)]))])), (Cert.pick 1 (Cert.branch [(Cert.pick 4 (Cert.branch [(Cert.pick 7 Cert.leaf), (Cert.pick 8 Cert.leaf), (Cert.pick 7 Cert.leaf)])), (Cert.pick 2 Cert.leaf), (Cert.pick 2 Cert.leaf), (Cert.pick 2 Cert.leaf), (Cert.pick 2 Cert.leaf)])), (Cert.pick 2 (Cert.branch [(Cert.pick 4 (Cert.branch [(Cert.pick 6 Cert.leaf), (Cert.pick 8 Cert.leaf), (Cert.pick 6 Cert.leaf)])), (Cert.pick 1 Cert.leaf), (Cert.pick 1 Cert.leaf), (Cert.pick 1 Cert.leaf), (Cert.pick 1 Cert.leaf)])), (Cert.pick 2 (Cert.branch [(Cert.pick 4 (Cert.branch [(Cert.pick 6 Cert.leaf), (Cert.pick 7 (Cert.branch [Cert.leaf])), (Cert.pick 6 Cert.leaf)])), (Cert.pick 1 Cert.leaf), (Cert.pick 1 Cert.leaf), (Cert.pick 1 Cert.leaf), (Cert.pick 1 Cert.leaf)]))]))

def certP0U4 : Cert :=
  (Cert.pick 0 (Cert.branch [(Cert.pick 7 (Cert.branch [(Cert.pick 6 (Cert.branch [(Cert.pick 8 Cert.leaf), (Cert.pick 3 Cert.leaf), (Cert.pick 3 Cert.leaf)])), (Cert.pick 5 (Cert.branch [(Cert.pick 6 (Cert.branch [Cert.leaf])), (Cert.pick 2 (Cert.branch [Cert.leaf])), (Cert.pick 2 (Cert.branch [Cert.leaf]))])), (Cert.pick 3 (Cert.branch [(Cert.pick 6 Cert.leaf), (Cert.pick 2 (Cert.branch [Cert.leaf])), (Cert.pick 6 Cert.leaf)])), (Cert.pick 2 (Cert.branch [(Cert.pick 5 (Cert.branch [Cert.leaf])), (Cert.pick 3 (Cert.branch [Cert.leaf])), (Cert.pick 3 (Cert.branch [Cert.leaf]))])), (Cert.pick 2 (Cert.branch [(Cert.pick 5 (Cert.branch [Cert.leaf])), (Cert.pick 3 (Cert.branch [Cert.leaf])), (Cert.pick 3 (Cert.branch [Cert.leaf]))]))])), (Cert.pick 6 (Cert.branch [(Cert.pick 3 Cert.leaf), (Cert.pick 5 (Cert.branch [(Cert.pick 7 (Cert.branch [Cert.leaf])), (Cert.pick 1 (Cert.branch [Cert.leaf])), (Cert.pick 1 (Cert.branch [Cert.leaf]))])), (Cert.pick 3 Cert.leaf), (Cert.pick 3 Cert.leaf), (Cert.pick 3 Cert.leaf)])), (Cert.pick 5 (Cert.branch [(Cert.pick 7 (Cert.branch [(Cert.pick 6 (Cert.branch [Cert.leaf])), (Cert.pick 2 (Cert.branch [Cert.leaf])), (Cert.pick 2 (Cert.branch [Cert.leaf]))])), (Cert.pick 6 (Cert.branch [(Cert.pick 7 (Cert.branch [Cert.leaf])), (Cert.pick 1 (Cert.branch [Cert.leaf])), (Cert.pick 1 (Cert.branch [Cert.leaf]))])), (Cert.pick 2 (Cert.branch [(Cert.pick 8 Cert.leaf), (Cert.pick 1 Cert.leaf), (Cert.pick 1 Cert.leaf)])), (Cert.pick 1 (Cert.branch [(Cert.pick 6 (Cert.branch [Cert.leaf])), (Cert.pick 2 Cert.leaf), (Cert.pick 2 Cert.leaf)])), (Cert.pick 1 (Cert.branch [(Cert.pick 6 (Cert.branch [Cert.leaf])), (Cert.pick 2 Cert.leaf), (Cert.pick 2 Cert.leaf)]))])), (Cert.pick 3 (Cert.branch [(Cert.pick 6 Cert.leaf), (Cert.pick 6 Cert.leaf), (Cert.pick 2 (Cert.branch [(Cert.pick 7 (Cert.branch [Cert.leaf])), (Cert.pick 1 Cert.leaf), (Cert.pick 1 Cert.leaf)])), (Cert.pick 6 Cert.leaf), (Cert.pick 6 Cert.leaf)])), (Cert.pick 2 (Cert.branch [(Cert.pick 7 (Cert.branch [(Cert.pick 5 (Cert.branch [Cert.leaf])), (Cert.pick 3 (Cert.branch [Cert.leaf])), (Cert.pick 3 (Cert.branch [Cert.leaf]))])), (Cert.pick 1 Cert.leaf), (Cert.pick 1 Cert.leaf), (Cert.pick 1 Cert.leaf), (Cert.pick 1 Cert.leaf)])), (Cert.pick 1 (Cert.branch [(Cert.pick 6 (Cert.branch [(Cert.pick 5 (Cert.branch [Cert.leaf])), (Cert.pick 3 Cert.leaf), (Cert.pick 3 Cert.leaf)])), (Cert.pick 2 Cert.leaf), (Cert.pick 2 Cert.leaf), (Cert.pick 2 Cert.leaf), (Cert.pick 2 Cert.leaf)])), (Cert.pick 2 (Cert.branch [(Cert.pick 7 (Cert.branch [(Cert.pick 5 (Cert.branch [Cert.leaf])), (Cert.pick 3 (Cert.branch [Cert.leaf])), (Cert.pick 3 (Cert.branch [Cert.leaf]))])), (Cert.pick 1 Cert.leaf), (Cert.pick 1 Cert.leaf), (Cert.pick 1 Cert.leaf), (Cert.pick 1 Cert.leaf)]))]))

def certP0U5 : Cert :=
  (Cert.pick 2 (Cert.branch [(Cert.pick 3 (Cert.branch [(Cert.pick 4 (Cert.branch [(Cert.pick 7 (Cert.branch [Cert.leaf])), (Cert.pick 6 Cert.leaf), (Cert.pick 6 Cert.leaf)])), (Cert.pick 8 (Cert.branch [(Cert.pick 7 (Cert.branch [Cert.leaf])), (Cert.pick 1 (Cert.branch [Cert.leaf])), (Cert.pick 1 (Cert.branch [Cert.leaf]))])), (Cert.pick 4 (Cert.branch [(Cert.pick 7 (Cert.branch [Cert.leaf])), (Cert.pick 8 (Cert.branch [Cert.leaf])), (Cert.pick 7 (Cert.branch [Cert.leaf]))])), (Cert.pick 4 (Cert.branch [(Cert.pick 6 Cert.leaf), (Cert.pick 8 (Cert.branch [Cert.leaf])), (Cert.pick 6 Cert.leaf)])), (Cert.pick 4 (Cert.branch [(Cert.pick 6 Cert.leaf), (Cert.pick 7 (Cert.branch [Cert.leaf])), (Cert.pick 6 Cert.leaf)]))])), (Cert.pick 3 (Cert.branch [(Cert.pick 4 (Cert.branch [(Cert.pick 7 (Cert.branch [Cert.leaf])), (Cert.pick 6 Cert.leaf), (Cert.pick 6 Cert.leaf)])), (Cert.pick 7 (Cert.branch [(Cert.pick 8 (Cert.branch [Cert.leaf])), (Cert.pick 0 (Cert.branch [Cert.leaf])), (Cert.pick 0 (Cert.branch [Cert.leaf]))])), (Cert.pick 4 (Cert.branch [(Cert.pick 7 (Cert.branch [Cert.leaf])), (Cert.pick 8 (Cert.branch [Cert.leaf])), (Cert.pick 7 (Cert.branch [Cert.leaf]))])), (Cert.pick 4 (Cert.branch [(Cert.pick 6 Cert.leaf), (Cert.pick 8 (Cert.branch [Cert.leaf])), (Cert.pick 6 Cert.leaf)])), (Cert.pick 6 (Cert.branch [(Cert.pick 4 Cert.leaf), (Cert.pick 0 Cert.leaf), (Cert.pick 0 Cert.leaf)]))])), (Cert.pick 4 (Cert.branch [(Cert.pick 6 Cert.leaf), (Cert.pick 6 Cert.leaf), (Cert.pick 0 (Cert.branch [(Cert.pick 8 Cert.leaf), (Cert.pick 1 Cert.leaf), (Cert.pick 1 Cert.leaf)])), (Cert.pick 6 Cert.leaf), (Cert.pick 6 Cert.leaf)])), (Cert.pick 3 (Cert.branch [(Cert.pick 8 (Cert.branch [(Cert.pick 7 (Cert.branch [Cert.leaf])), (Cert.pick 1 (Cert.branch [Cert.leaf])), (Cert.pick 1 (Cert.branch [Cert.leaf]))])), (Cert.pick 7 (Cert.branch [(Cert.pick 8 (Cert.branch [Cert.leaf])), (Cert.pick 0 (Cert.branch [Cert.leaf])), (Cert.pick 0 (Cert.branch [Cert.leaf]))])), (Cert.pick 0 (Cert.branch [(Cert.pick 7 (Cert.branch [Cert.leaf])), (Cert.pick 1 Cert.leaf), (Cert.pick 1 Cert.leaf)])), (Cert.pick 1 (Cert.branch [(Cert.pick 8 (Cert.branch [Cert.leaf])), (Cert.pick 0 Cert.leaf), (Cert.pick 0 Cert.leaf)])), (Cert.pick 0 (Cert.branch [(Cert.pick 6 Cert.leaf), (Cert.pick 1 Cert.leaf), (Cert.pick 1 Cert.leaf)]))])), (Cert.pick 0 (Cert.branch [(Cert.pick 4 (Cert.branch [(Cert.pick 8 Cert.leaf), (Cert.pick 8 Cert.leaf), (Cert.pick 7 (Cert.branch [Cert.leaf]))])), (Cert.pick 1 Cert.leaf), (Cert.pick 1 Cert.leaf), (Cert.pick 1 Cert.leaf), (Cert.pick 1 Cert.leaf)])), (Cert.pick 0 (Cert.branch [(Cert.pick 4 (Cert.branch [(Cert.pick 6 Cert.leaf), (Cert.pick 8 Cert.leaf), (Cert.pick 6 Cert.leaf)])), (Cert.pick 1 Cert.leaf), (Cert.pick 1 Cert.leaf), (Cert.pick 1 Cert.leaf), (Cert.pick 1 Cert.leaf)])), (Cert.pick 0 (Cert.branch [(Cert.pick 6 (Cert.branch [(Cert.pick 4 Cert.leaf), (Cert.pick 3 Cert.leaf), (Cert.pick 3 Cert.leaf)])), (Cert.pick 1 Cert.leaf), (Cert.pick 1 Cert.leaf), (Cert.pick 1 Cert.leaf), (Cert.pick 1 Cert.leaf)]))]))

def certP0U6 : Cert :=
  (Cert.pick 4 (Cert.branch [(Cert.pick 3 (Cert.branch [(Cert.pick 5 Cert.leaf), (Cert.pick 5 Cert.leaf), (Cert.pick 1 (Cert.branch [(Cert.pick 7 Cert.leaf), (Cert.pick 8 (Cert.branch [Cert.leaf])), (Cert.pick 7 Cert.leaf)])), (Cert.pick 5 Cert.leaf), (Cert.pick 5 Cert.leaf)])), (Cert.pick 0 (Cert.branch [(Cert.pick 8 Cert.leaf), (Cert.pick 8 Cert.leaf), (Cert.pick 8 Cert.leaf), (Cert.pick 8 Cert.leaf), (Cert.pick 7 (Cert.branch [(Cert.pick 5 (Cert.branch [Cert.leaf])), (Cert.pick 2 (Cert.branch [Cert.leaf])), (Cert.pick 2 (Cert.branch [Cert.leaf]))]))])), (Cert.pick 1 (Cert.branch [(Cert.pick 7 Cert.leaf), (Cert.pick 7 Cert.leaf), (Cert.pick 7 Cert.leaf), (Cert.pick 8 (Cert.branch [(Cert.pick 3 (Cert.branch [Cert.leaf])), (Cert.pick 0 Cert.leaf), (Cert.pick 0 Cert.leaf)])), (Cert.pick 7 Cert.leaf)])), (Cert.pick 0 (Cert.branch [(Cert.pick 8 Cert.leaf), (Cert.pick 8 Cert.leaf), (Cert.pick 8 Cert.leaf), (Cert.pick 8 Cert.leaf), (Cert.pick 7 (Cert.branch [(Cert.pick 2 (Cert.branch [Cert.leaf])), (Cert.pick 1 Cert.leaf), (Cert.pick 1 Cert.leaf)]))])), (Cert.pick 1 (Cert.branch [(Cert.pick 7 Cert.leaf), (Cert.pick 7 Cert.leaf), (Cert.pick 7 Cert.leaf), (Cert.pick 8 (Cert.branch [(Cert.pick 3 (Cert.branch [Cert.leaf])), (Cert.pick 0 Cert.leaf), (Cert.pick 0 Cert.leaf)])), (Cert.pick 7 Cert.leaf)])), (Cert.pick 8 (Cert.branch [(Cert.pick 3 (Cert.branch [(Cert.pick 5 Cert.leaf), (Cert.pick 5 Cert.leaf), (Cert.pick 1 (Cert.branch [Cert.leaf]))])), (Cert.pick 0 Cert.leaf), (Cert.pick 0 Cert.leaf), (Cert.pick 0 Cert.leaf), (Cert.pick 0 Cert.leaf)])), (Cert.pick 7 (Cert.branch [(Cert.pick 1 Cert.leaf), (Cert.pick 0 (Cert.branch [(Cert.pick 5 (Cert.branch [Cert.leaf])), (Cert.pick 2 (Cert.branch [Cert.leaf])), (Cert.pick 2 (Cert.branch [Cert.leaf]))])), (Cert.pick 1 Cert.leaf), (Cert.pick 1 Cert.leaf), (Cert.pick 1 Cert.leaf)]))]))

def certP0U7 : Cert :=
  (Cert.pick 1 (Cert.branch [(Cert.pick 6 (Cert.branch [(Cert.pick 4 (Cert.branch [(Cert.pick 5 (Cert.branch [Cert.leaf])), (Cert.pick 8 (Cert.branch [Cert.leaf])), (Cert.pick 5 (Cert.branch [Cert.leaf]))])), (Cert.pick 4 (Cert.branch [(Cert.pick 5 (Cert.branch [Cert.leaf])), (Cert.pick 2 Cert.leaf), (Cert.pick 2 Cert.leaf)])), (Cert.pick 8 (Cert.branch [(Cert.pick 3 (Cert.branch [Cert.leaf])), (Cert.pick 5 (Cert.branch [Cert.leaf])), (Cert.pick 3 (Cert.branch [Cert.leaf]))])), (Cert.pick 4 (Cert.branch [(Cert.pick 8 (Cert.branch [Cert.leaf])), (Cert.pick 2 Cert.leaf), (Cert.pick 2 Cert.leaf)])), (Cert.pick 4 (Cert.branch [(Cert.pick 5 (Cert.branch [Cert.leaf])), (Cert.pick 2 Cert.leaf), (Cert.pick 2 Cert.leaf)]))])), (Cert.pick 6 (Cert.branch [(Cert.pick 4 (Cert.branch [(Cert.pick 5 (Cert.branch [Cert.leaf])), (Cert.pick 8 (Cert.branch [Cert.leaf])), (Cert.pick 5 (Cert.branch [Cert.leaf]))])), (Cert.pick 4 (Cert.branch [(Cert.pick 5 (Cert.branch [Cert.leaf])), (Cert.pick 8 (Cert.branch [Cert.leaf])), (Cert.pick 5 (Cert.branch [Cert.leaf]))])), (Cert.pick 0 (Cert.branch [(Cert.pick 5 (Cert.branch [Cert.leaf])), (Cert.pick 3 Cert.leaf), (Cert.pick 3 Cert.leaf)])), (Cert.pick 8 (Cert.branch [(Cert.pick 3 (Cert.branch [Cert.leaf])), (Cert.pick 4 (Cert.branch [Cert.leaf])), (Cert.pick 3 (Cert.branch [Cert.leaf]))])), (Cert.pick 5 (Cert.branch [(Cert.pick 4 (Cert.branch [Cert.leaf])), (Cert.pick 0 (Cert.branch [Cert.leaf])), (Cert.pick 0 (Cert.branch [Cert.leaf]))]))])), (Cert.pick 6 (Cert.branch [(Cert.pick 4 (Cert.branch [(Cert.pick 5 (Cert.branch [Cert.leaf])), (Cert.pick 2 Cert.leaf), (Cert.pick 2 Cert.leaf)])), (Cert.pick 4 (Cert.branch [(Cert.pick 5 (Cert.branch [Cert.leaf])), (Cert.pick 8 (Cert.branch [Cert.leaf])), (Cert.pick 5 (Cert.branch [Cert.leaf]))])), (Cert.pick 5 (Cert.branch [(Cert.pick 8 (Cert.branch [Cert.leaf])), (Cert.pick 0 (Cert.branch [Cert.leaf])), (Cert.pick 0 (Cert.branch [Cert.leaf]))])), (Cert.pick 4 (Cert.branch [(Cert.pick 2 Cert.leaf), (Cert.pick 8 (Cert.branch [Cert.leaf])), (Cert.pick 2 Cert.leaf)])), (Cert.pick 2 (Cert.branch [(Cert.pick 4 Cert.leaf), (Cert.pick 0 Cert.leaf), (Cert.pick 0 Cert.leaf)]))])), (Cert.pick 0 (Cert.branch [(Cert.pick 6 (Cert.branch [(Cert.pick 5 (Cert.branch [Cert.leaf])), (Cert.pick 3 Cert.leaf), (Cert.pick 3 Cert.leaf)])), (Cert.pick 2 Cert.leaf), (Cert.pick 2 Cert.leaf), (Cert.pick 2 Cert.leaf), (Cert.pick 2 Cert.leaf)])), (Cert.pick 6 (Cert.branch [(Cert.pick 4 (Cert.branch [(Cert.pick 8 (Cert.branch [Cert.leaf])), (Cert.pick 2 Cert.leaf), (Cert.pick 2 Cert.leaf)])), (Cert.pick 8 (Cert.branch [(Cert.pick 3 (Cert.branch [Cert.leaf])), (Cert.pick 4 (Cert.branch [Cert.leaf])), (Cert.pick 3 (Cert.branch [Cert.leaf]))])), (Cert.pick 4 (Cert.branch [(Cert.pick 2 Cert.leaf), (Cert.pick 8 (Cert.branch [Cert.leaf])), (Cert.pick 2 Cert.leaf)])), (Cert.pick 3 (Cert.branch [(Cert.pick 8 (Cert.branch [Cert.leaf])), (Cert.pick 0 Cert.leaf), (Cert.pick 0 Cert.leaf)])), (Cert.pick 2 (Cert.branch [(Cert.pick 4 Cert.leaf), (Cert.pick 0 Cert.leaf), (Cert.pick 0 Cert.leaf)]))])), (Cert.pick 8 (Cert.branch [(Cert.pick 3 (Cert.branch [(Cert.pick 4 (Cert.branch [Cert.leaf])), (Cert.pick 2 (Cert.branch [Cert.leaf])), (Cert.pick 2 (Cert.branch [Cert.leaf]))])), (Cert.pick 4 (Cert.branch [(Cert.pick 3 (Cert.branch [Cert.leaf])), (Cert.pick 0 Cert.leaf), (Cert.pick 0 Cert.leaf)])), (Cert.pick 0 (Cert.branch [(Cert.pick 4 Cert.leaf), (Cert.pick 2 Cert.leaf), (Cert.pick 2 Cert.leaf)])), (Cert.pick 2 (Cert.branch [(Cert.pick 5 Cert.leaf), (Cert.pick 0 Cert.leaf), (Cert.pick 0 Cert.leaf)])), (Cert.pick 0 (Cert.branch [(Cert.pick 4 Cert.leaf), (Cert.pick 2 Cert.leaf), (Cert.pick 2 Cert.leaf)]))])), (Cert.pick 6 (Cert.branch [(Cert.pick 4 (Cert.branch [(Cert.pick 5 (Cert.branch [Cert.leaf])), (Cert.pick 2 Cert.leaf), (Cert.pick 2 Cert.leaf)])), (Cert.pick 5 (Cert.branch [(Cert.pick 4 (Cert.branch [Cert.leaf])), (Cert.pick 0 (Cert.branch [Cert.leaf])), (Cert.pick 0 (Cert.branch [Cert.leaf]))])), (Cert.pick 2 (Cert.branch [(Cert.pick 4 Cert.leaf), (Cert.pick 0 Cert.leaf), (Cert.pick 0 Cert.leaf)])), (Cert.pick 0 (Cert.branch [(Cert.pick 3 Cert.leaf), (Cert.pick 2 Cert.leaf), (Cert.pick 2 Cert.leaf)])), (Cert.pick 2 (Cert.branch [(Cert.pick 4 Cert.leaf), (Cert.pick 0 Cert.leaf), (Cert.pick 0 Cert.leaf)]))]))]))

def certP0U8 : Cert :=
  (Cert.pick 4 (Cert.branch [(Cert.pick 1 (Cert.branch [(Cert.pick 7 Cert.leaf), (Cert.pick 7 Cert.leaf), (Cert.pick 7 Cert.leaf), (Cert.pick 7 Cert.leaf), (Cert.pick 6 (Cert.branch [(Cert.pick 5 (Cert.branch [Cert.leaf])), (Cert.pick 2 Cert.leaf), (Cert.pick 2 Cert.leaf)]))])), (Cert.pick 0 (Cert.branch [(Cert.pick 5 (Cert.branch [(Cert.pick 6 (Cert.branch [Cert.leaf])), (Cert.pick 3 Cert.leaf), (Cert.pick 3 Cert.leaf)])), (Cert.pick 2 (Cert.branch [(Cert.pick 6 Cert.leaf), (Cert.pick 7 (Cert.branch [Cert.leaf])), (Cert.pick 6 Cert.leaf)])), (Cert.pick 2 (Cert.branch [(Cert.pick 6 Cert.leaf), (Cert.pick 7 (Cert.branch [Cert.leaf])), (Cert.pick 6 Cert.leaf)])), (Cert.pick 7 (Cert.branch [(Cert.pick 5 (Cert.branch [Cert.leaf])), (Cert.pick 2 (Cert.branch [Cert.leaf])), (Cert.pick 2 (Cert.branch [Cert.leaf]))])), (Cert.pick 6 (Cert.branch [(Cert.pick 3 Cert.leaf), (Cert.pick 2 Cert.leaf), (Cert.pick 2 Cert.leaf)]))])), (Cert.pick 5 (Cert.branch [(Cert.pick 3 Cert.leaf), (Cert.pick 3 Cert.leaf), (Cert.pick 0 (Cert.branch [(Cert.pick 6 (Cert.branch [Cert.leaf])), (Cert.pick 7 (Cert.branch [Cert.leaf])), (Cert.pick 6 (Cert.branch [Cert.leaf]))])), (Cert.pick 3 Cert.leaf), (Cert.pick 3 Cert.leaf)])), (Cert.pick 0 (Cert.branch [(Cert.pick 2 (Cert.branch [(Cert.pick 6 Cert.leaf), (Cert.pick 7 (Cert.branch [Cert.leaf])), (Cert.pick 6 Cert.leaf)])), (Cert.pick 5 (Cert.branch [(Cert.pick 6 (Cert.branch [Cert.leaf])), (Cert.pick 7 (Cert.branch [Cert.leaf])), (Cert.pick 6 (Cert.branch [Cert.leaf]))])), (Cert.pick 2 (Cert.branch [(Cert.pick 6 Cert.leaf), (Cert.pick 1 Cert.leaf), (Cert.pick 1 Cert.leaf)])), (Cert.pick 7 (Cert.branch [(Cert.pick 2 (Cert.branch [Cert.leaf])), (Cert.pick 1 Cert.leaf), (Cert.pick 1 Cert.leaf)])), (Cert.pick 6 (Cert.branch [(Cert.pick 2 Cert.leaf), (Cert.pick 5 (Cert.branch [Cert.leaf])), (Cert.pick 2 Cert.leaf)]))])), (Cert.pick 2 (Cert.branch [(Cert.pick 6 Cert.leaf), (Cert.pick 6 Cert.leaf), (Cert.pick 6 Cert.leaf), (Cert.pick 7 (Cert.branch [(Cert.pick 1 Cert.leaf), (Cert.pick 0 (Cert.branch [Cert.leaf])), (Cert.pick 1 Cert.leaf)])), (Cert.pick 6 Cert.leaf)])), (Cert.pick 7 (Cert.branch [(Cert.pick 1 Cert.leaf), (Cert.pick 0 (Cert.branch [(Cert.pick 5 (Cert.branch [Cert.leaf])), (Cert.pick 2 (Cert.branch [Cert.leaf])), (Cert.pick 2 (Cert.branch [Cert.leaf]))])), (Cert.pick 1 Cert.leaf), (Cert.pick 1 Cert.leaf), (Cert.pick 1 Cert.leaf)])), (Cert.pick 6 (Cert.branch [(Cert.pick 2 Cert.leaf), (Cert.pick 2 Cert.leaf), (Cert.pick 5 (Cert.branch [(Cert.pick 3 Cert.leaf), (Cert.pick 3 Cert.leaf), (Cert.pick 0 (Cert.branch [Cert.leaf]))])), (Cert.pick 2 Cert.leaf), (Cert.pick 2 Cert.leaf)]))]))

def certP1U1 : Cert :=
  (Cert.pick 3 (Cert.branch [(Cert.pick 6 Cert.leaf), (Cert.pick 6 Cert.leaf), (Cert.pick 6 Cert.leaf), (Cert.pick 4 (Cert.branch [(Cert.pick 5 Cert.leaf), (Cert.pick 8 Cert.leaf), (Cert.pick 5 Cert.leaf), (Cert.pick 5 Cert.leaf)])), (Cert.pick 6 Cert.leaf), (Cert.pick 6 Cert.leaf)]))

def certP1U2 : Cert :=
  (Cert.pick 3 (Cert.branch [(Cert.pick 6 Cert.leaf), (Cert.pick 6 Cert.leaf), (Cert.pick 6 Cert.leaf), (Cert.pick 4 (Cert.branch [(Cert.pick 5 Cert.leaf), (Cert.pick 8 Cert.leaf), (Cert.pick 5 Cert.leaf), (Cert.pick 5 Cert.leaf)])), (Cert.pick 6 Cert.leaf), (Cert.pick 6 Cert.leaf)]))

def certP1U3 : Cert :=
  (Cert.pick 1 (Cert.branch [(Cert.pick 4 (Cert.branch [(Cert.pick 7 Cert.leaf), (Cert.pick 7 Cert.leaf), (Cert.pick 8 Cert.leaf), (Cert.pick 7 Cert.leaf)])), (Cert.pick 2 Cert.leaf), (Cert.pick 2 Cert.leaf), (Cert.pick 2 Cert.leaf), (Cert.pick 2 Cert.leaf), (Cert.pick 2 Cert.leaf)]))

def certP1U4 : Cert :=
  (Cert.pick 1 (Cert.branch [(Cert.pick 6 (Cert.branch [(Cert.pick 5 (Cert.branch [(Cert.pick 8 Cert.leaf), (Cert.pick 7 Cert.leaf)])), (Cert.pick 3 Cert.leaf), (Cert.pick 3 Cert.leaf), (Cert.pick 3 Cert.leaf)])), (Cert.pick 2 Cert.leaf), (Cert.pick 2 Cert.leaf), (Cert.pick 2 Cert.leaf), (Cert.pick 2 Cert.leaf), (Cert.pick 2 Cert.leaf)]))

def certP1L4 : Cert :=
  (Cert.branch [(Cert.pick 2 (Cert.branch [(Cert.pick 6 Cert.leaf), (Cert.pick 6 Cert.leaf), (Cert.pick 3 (Cert.branch [(Cert.pick 7 (Cert.branch [Cert.leaf])), (Cert.pick 5 Cert.leaf), (Cert.pick 5 Cert.leaf)])), (Cert.pick 6 Cert.leaf), (Cert.pick 6 Cert.leaf)])), (Cert.pick 1 (Cert.branch [(Cert.pick 7 Cert.leaf), (Cert.pick 7 Cert.leaf), (Cert.pick 7 Cert.leaf), (Cert.pick 3 (Cert.branch [(Cert.pick 8 (Cert.branch [Cert.leaf])), (Cert.pick 5 Cert.leaf), (Cert.pick 5 Cert.leaf)])), (Cert.pick 7 Cert.leaf)])), (Cert.pick 6 (Cert.branch [(Cert.pick 2 Cert.leaf), (Cert.pick 1 (Cert.branch [(Cert.pick 7 Cert.leaf), (Cert.pick 5 (Cert.branch [Cert.leaf])), (Cert.pick 7 Cert.leaf)])), (Cert.pick 2 Cert.leaf), (Cert.pick 2 Cert.leaf), (Cert.pick 2 Cert.leaf)])), (Cert.pick 1 (Cert.branch [(Cert.pick 7 Cert.leaf), (Cert.pick 7 Cert.leaf), (Cert.pick 7 Cert.leaf), (Cert.pick 6 (Cert.branch [(Cert.pick 8 (Cert.branch [Cert.leaf])), (Cert.pick 2 Cert.leaf), (Cert.pick 2 Cert.leaf)])), (Cert.pick 7 Cert.leaf)])), (Cert.pick 3 (Cert.branch [(Cert.pick 5 Cert.leaf), (Cert.pick 5 Cert.leaf), (Cert.pick 1 (Cert.branch [(Cert.pick 7 Cert.leaf), (Cert.pick 8 (Cert.branch [Cert.leaf])), (Cert.pick 7 Cert.leaf)])), (Cert.pick 5 Cert.leaf), (Cert.pick 5 Cert.leaf)])), (Cert.pick 3 (Cert.branch [(Cert.pick 5 Cert.leaf), (Cert.pick 5 Cert.leaf), (Cert.pick 2 (Cert.branch [(Cert.pick 6 Cert.leaf), (Cert.pick 8 (Cert.branch [Cert.leaf])), (Cert.pick 6 Cert.leaf)])), (Cert.pick 5 Cert.leaf), (Cert.pick 5 Cert.leaf)])), (Cert.pick 1 (Cert.branch [(Cert.pick 7 Cert.leaf), (Cert.pick 7 Cert.leaf), (Cert.pick 7 Cert.leaf), (Cert.pick 7 Cert.leaf), (Cert.pick 6 (Cert.branch [(Cert.pick 5 (Cert.branch [Cert.leaf])), (Cert.pick 2 Cert.leaf), (Cert.pick 2 Cert.leaf)]))]))])

def certP1U5 : Cert :=
  (Cert.pick 2 (Cert.branch [(Cert.pick 4 (Cert.branch [(Cert.pick 6 Cert.leaf), (Cert.pick 8 Cert.leaf), (Cert.pick 6 Cert.leaf), (Cert.pick 6 Cert.leaf)])), (Cert.pick 1 Cert.leaf), (Cert.pick 1 Cert.leaf), (Cert.pick 1 Cert.leaf), (Cert.pick 1 Cert.leaf), (Cert.pick 1 Cert.leaf)]))

def certP1U6 : Cert :=
  (Cert.pick 1 (Cert.branch [(Cert.pick 4 (Cert.branch [(Cert.pick 7 Cert.leaf), (Cert.pick 7 Cert.leaf), (Cert.pick 8 Cert.leaf), (Cert.pick 7 Cert.leaf)])), (Cert.pick 2 Cert.leaf), (Cert.pick 2 Cert.leaf), (Cert.pick 2 Cert.leaf), (Cert.pick 2 Cert.leaf), (Cert.pick 2 Cert.leaf)]))

def certP1U7 : Cert :=
  (Cert.pick 2 (Cert.branch [(Cert.pick 4 (Cert.branch [(Cert.pick 6 Cert.leaf), (Cert.pick 6 Cert.leaf), (Cert.pick 8 Cert.leaf), (Cert.pick 6 Cert.leaf)])), (Cert.pick 1 Cert.leaf), (Cert.pick 1 Cert.leaf), (Cert.pick 1 Cert.leaf), (Cert.pick 1 Cert.leaf), (Cert.pick 1 Cert.leaf)]))

def certP1U8 : Cert :=
  (Cert.pick 2 (Cert.branch [(Cert.pick 6 (Cert.branch [(Cert.pick 4 Cert.leaf), (Cert.pick 3 Cert.leaf), (Cert.pick 3 Cert.leaf), (Cert.pick 3 Cert.leaf)])), (Cert.pick 1 Cert.leaf), (Cert.pick 1 Cert.leaf), (Cert.pick 1 Cert.leaf), (Cert.pick 1 Cert.leaf), (Cert.pick 1 Cert.leaf)]))

def certP2U1 : Cert :=
  (Cert.pick 2 (Cert.branch [(Cert.pick 6 Cert.leaf), (Cert.pick 6 Cert.leaf), (Cert.pick 3 (Cert.branch [(Cert.pick 7 (Cert.branch [Cert.leaf])), (Cert.pick 5 Cert.leaf), (Cert.pick 5 Cert.leaf)])), (Cert.pick 6 Cert.leaf), (Cert.pick 6 Cert.leaf)]))

def certP2L1 : Cert :=
  (Cert.branch [(Cert.pick 6 (Cert.branch [(Cert.pick 5 (Cert.branch [(Cert.pick 8 Cert.leaf), (Cert.pick 7 Cert.leaf)])), (Cert.pick 3 Cert.leaf), (Cert.pick 3 Cert.leaf), (Cert.pick 3 Cert.leaf)])), (Cert.pick 2 Cert.leaf), (Cert.pick 2 Cert.leaf), (Cert.pick 2 Cert.leaf), (Cert.pick 2 Cert.leaf), (Cert.pick 2 Cert.leaf)])

def certP2U2 : Cert :=
  (Cert.pick 1 (Cert.branch [(Cert.pick 7 Cert.leaf), (Cert.pick 7 Cert.leaf), (Cert.pick 7 Cert.leaf), (Cert.pick 3 (Cert.branch [(Cert.pick 8 (Cert.branch [Cert.leaf])), (Cert.pick 5 Cert.leaf), (Cert.pick 5 Cert.leaf)])), (Cert.pick 7 Cert.leaf)]))

def certP2U3 : Cert :=
  (Cert.pick 6 (Cert.branch [(Cert.pick 2 Cert.leaf), (Cert.pick 1 (Cert.branch [(Cert.pick 7 Cert.leaf), (Cert.pick 5 (Cert.branch [Cert.leaf])), (Cert.pick 7 Cert.leaf)])), (Cert.pick 2 Cert.leaf), (Cert.pick 2 Cert.leaf), (Cert.pick 2 Cert.leaf)]))

def certP2U5 : Cert :=
  (Cert.pick 1 (Cert.branch [(Cert.pick 7 Cert.leaf), (Cert.pick 7 Cert.leaf), (Cert.pick 7 Cert.leaf), (Cert.pick 6 (Cert.branch [(Cert.pick 8 (Cert.branch [Cert.leaf])), (Cert.pick 2 Cert.leaf), (Cert.pick 2 Cert.leaf)])), (Cert.pick 7 Cert.leaf)]))

def certP2U6 : Cert :=
  (Cert.pick 3 (Cert.branch [(Cert.pick 5 Cert.leaf), (Cert.pick 5 Cert.leaf), (Cert.pick 1 (Cert.branch [(Cert.pick 7 Cert.leaf), (Cert.pick 8 (Cert.branch [Cert.leaf])), (Cert.pick 7 Cert.leaf)])), (Cert.pick 5 Cert.leaf), (Cert.pick 5 Cert.leaf)]))

def certP2U7 : Cert :=
  (Cert.pick 3 (Cert.branch [(Cert.pick 5 Cert.leaf), (Cert.pick 5 Cert.leaf), (Cert.pick 2 (Cert.branch [(Cert.pick 6 Cert.leaf), (Cert.pick 8 (Cert.branch [Cert.leaf])), (Cert.pick 6 Cert.leaf)])), (Cert.pick 5 Cert.leaf), (Cert.pick 5 Cert.leaf)]))

def certP2U8 : Cert :=
  (Cert.pick 1 (Cert.branch [(Cert.pick 7 Cert.leaf), (Cert.pick 7 Cert.leaf), (Cert.pick 7 Cert.leaf), (Cert.pick 7 Cert.leaf), (Cert.pick 6 (Cert.branch [(Cert.pick 5 (Cert.branch [Cert.leaf])), (Cert.pick 2 Cert.leaf), (Cert.pick 2 Cert.leaf)]))]))


/-! # Theorems

## Basic board lemmas -/

theorem setCell_length (b : Board) (i : Nat) (v : Option Player) :
    (setCell b i v).length = b.length :=
  List.length_set b i v

theorem get?_setCell_self {b : Board} {i : Nat} (h : i < b.length) (v : Option Player) :
    (setCell b i v).get? i = some v := by
  rw [setCell, List.get?_eq_getElem?]
  exact List.getElem?_set_eq_of_lt v h

theorem get?_setCell_ne {b : Board} {i j : Nat} (h : i ≠ j) (v : Option Player) :
    (setCell b i v).get? j = b.get? j := by
  rw [setCell, List.get?_eq_getElem?, List.getElem?_set_ne h, List.get?_eq_getElem?]

theorem lt_length_of_get?_eq_some {b : Board} {i : Nat} {c : Option Player}
    (h : b.get? i = some c) : i < b.length := by
  rw [List.get?_eq_getElem?] at h
  rcases List.getElem?_eq_some_iff.mp h with ⟨hl, _⟩
  exact hl

theorem set_of_get? {b : Board} {i : Nat} {c : Option Player}
    (h : b.get? i = some c) : b.set i c = b := by
  have hlen : i < b.length := lt_length_of_get?_eq_some h
  rw [List.get?_eq_getElem?] at h
  apply List.ext_getElem?
  intro n
  rw [List.getElem?_set]
  by_cases hin : i = n
  · subst hin
    simp [hlen, h]
  · simp [hin]

theorem setCell_restore {b : Board} {i : Nat} (h : b.get? i = some none)
    (v : Option Player) : setCell (setCell b i v) i none = b := by
  rw [setCell, setCell, List.set_set]
  exact set_of_get? h

theorem mem_getAvailableMoves {b : Board} {i : Nat} :
    i ∈ getAvailableMoves b ↔ b.get? i = some none := by
  rw [getAvailableMoves, List.mem_filter, List.mem_range, List.get?_eq_getElem?]
  constructor
  · rintro ⟨hlt, hc⟩
    rw [decide_eq_true_eq, cell, List.getD_eq_getElem?_getD] at hc
    cases hbi : b[i]? with
    | none => exact absurd (List.getElem?_eq_none_iff.mp hbi) (Nat.not_le.mpr hlt)
    | some c =>
      rw [hbi] at hc
      simp only [Option.getD_some] at hc
      rw [hc]
  · intro h
    have hlt : i < b.length := by
      rcases List.getElem?_eq_some_iff.mp h with ⟨hl, _⟩
      exact hl
    refine ⟨hlt, ?_⟩
    rw [decide_eq_true_eq, cell, List.getD_eq_getElem?_getD, h]
    rfl

theorem getAvailableMoves_pairwise (b : Board) :
    (getAvailableMoves b).Pairwise (· < ·) :=
  List.Pairwise.sublist (List.filter_sublist _) (List.pairwise_lt_range _)

theorem getAvailableMoves_length_le (b : Board) :
    (getAvailableMoves b).length ≤ b.length := by
  have h := List.length_filter_le
    (fun i => decide (cell b i = none)) (List.range b.length)
  rwa [List.length_range] at h

theorem getAvailableMoves_nil_iff (b : Board) :
    getAvailableMoves b = [] ↔ ∀ i, i < b.length → b.get? i ≠ some none := by
  rw [List.eq_nil_iff_forall_not_mem]
  constructor
  · intro h i _ hc
    exact h i (mem_getAvailableMoves.mpr hc)
  · intro h i hm
    have hc := mem_getAvailableMoves.mp hm
    exact h i (lt_length_of_get?_eq_some hc) hc

/-! ## Claim C3: terminal behaviour of minimax -/

/-- Claim C3: for every board, depth, maximizing flag and mark, if
`evaluate` yields +10 (win) then `minimax` returns `10 - depth`, if it
yields −10 (loss) then `minimax` returns `-10 + depth` (score minus depth
times its sign), and otherwise, when the board has no empty cell,
`minimax` returns 0. -/
theorem minimax_terminal_cases (b : Board) (d : Nat) (m : Bool) (ai : Player) :
    (evaluate b ai = 10 → minimax b d m ai = 10 - (d : Int)) ∧
    (evaluate b ai = -10 → minimax b d m ai = -10 + (d : Int)) ∧
    (evaluate b ai ≠ 10 → evaluate b ai ≠ -10 →
      (∀ i, i < b.length → b.get? i ≠ some none) → minimax b d m ai = 0) := by
  have hunfold : minimax b d m ai =
      (minimaxS (9 + 1) b d m ai).1 := rfl
  refine ⟨?_, ?_, ?_⟩
  · intro h
    rw [hunfold, minimaxS, h]
    norm_num
    rw [show Int.sign 10 = 1 by decide, mul_one]
  · intro h
    rw [hunfold, minimaxS, h]
    norm_num
    rw [show Int.sign 10 = 1 by decide, mul_one]
  · intro h1 h2 h3
    have hnil : getAvailableMoves b = [] := (getAvailableMoves_nil_iff b).mpr h3
    rw [hunfold, minimaxS]
    simp [h1, h2, hnil]

/-- Witness for C3 at concrete boards: a won, a lost and a drawn
position. -/
theorem minimax_terminal_cases_witness :
    minimax [some .X, some .X, some .X, some .O, some .O, none, none, none, none]
        3 true Player.X = 10 - (3 : Int) ∧
    minimax [some .X, some .X, some .X, some .O, some .O, none, none, none, none]
        2 false Player.O = -10 + (2 : Int) ∧
    minimax [some .X, some .O, some .X, some .X, some .O, some .O,
        some .O, some .X, some .X] 5 true Player.X = 0 :=
  ⟨(minimax_terminal_cases _ 3 true Player.X).1 (by decide),
   (minimax_terminal_cases _ 2 false Player.O).2.1 (by decide),
   (minimax_terminal_cases _ 5 true Player.X).2.2 (by decide) (by decide)
     (by decide)⟩

/-! ## Claim C8: rejected moves are silent no-ops -/

/-- Claim C8: in any reachable session state, `handleMove` on an occupied
cell, or when the game is no longer in progress (`winner` set), leaves
the whole state unchanged — a silent no-op, not an error. -/
theorem handleMove_rejected (s : AppState) (i : Nat) (_hs : Reachable s)
    (h : (∃ p, s.board.get? i = some (some p)) ∨ s.winner ≠ none) :
    handleMove s i = s := by
  rw [handleMove, if_pos]
  rcases h with ⟨p, hp⟩ | hw
  · right
    rw [hp]
    simp
  · left
    rw [gameOver]
    cases hwv : s.winner with
    | none => exact absurd hwv hw
    | some o => rfl

/-- Witness for C8: after X takes cell 0, clicking cell 0 again changes
nothing. -/
theorem handleMove_rejected_witness :
    handleMove (handleMove initialState 0) 0 = handleMove initialState 0 :=
  handleMove_rejected _ 0 (Reachable.click initialState 0 Reachable.init)
    (Or.inl ⟨Player.X, by decide⟩)

/-! ## Claim C9: accepted moves change exactly one cell and flip the turn -/

theorem updateOutcome_board (s : AppState) : (updateOutcome s).board = s.board := by
  rw [updateOutcome]
  cases calculateWinner s.board with
  | some w => rfl
  | none =>
    dsimp only
    split <;> rfl

theorem updateOutcome_xIsNext (s : AppState) :
    (updateOutcome s).xIsNext = s.xIsNext := by
  rw [updateOutcome]
  cases calculateWinner s.board with
  | some w => rfl
  | none =>
    dsimp only
    split <;> rfl

/-- Claim C9: in a reachable in-progress state, an accepted move writes
the current player's mark into the (previously empty) chosen cell, leaves
every other cell unchanged, and flips the turn — hence marks strictly
alternate over accepted moves and no filled cell is ever overwritten. -/
theorem handleMove_accepted (s : AppState) (i : Nat) (_hs : Reachable s)
    (hw : s.winner = none) (hc : s.board.get? i = some none) :
    (handleMove s i).board.get? i = some (some (currentPlayer s)) ∧
    (∀ j, j ≠ i → (handleMove s i).board.get? j = s.board.get? j) ∧
    (handleMove s i).xIsNext = (!s.xIsNext) := by
  have hcond : ¬ (gameOver s = true ∨ s.board.get? i ≠ some none) := by
    push_neg
    refine ⟨?_, by simpa using hc⟩
    rw [gameOver, hw]
    simp
  rw [handleMove, if_neg hcond]
  refine ⟨?_, ?_, ?_⟩
  · rw [updateOutcome_board]
    exact get?_setCell_self (lt_length_of_get?_eq_some hc) _
  · intro j hji
    rw [updateOutcome_board]
    exact get?_setCell_ne (Ne.symm hji) _
  · rw [updateOutcome_xIsNext]

/-- Witness for C9: the first click on the empty board. -/
theorem handleMove_accepted_witness :
    (handleMove initialState 4).board.get? 4 = some (some (currentPlayer initialState)) ∧
    (∀ j, j ≠ 4 → (handleMove initialState 4).board.get? j = initialState.board.get? j) ∧
    (handleMove initialState 4).xIsNext = (!initialState.xIsNext) :=
  handleMove_accepted initialState 4 Reachable.init rfl (by decide)

/-! ## Frame lemmas: the search restores the board before returning -/

theorem searchLoop_board (rec : Board → Int × Board) (mark : Player)
    (comb : Int → Int → Int) :
    ∀ (l : List Nat) (b : Board) (best : Int),
      (∀ b2, (rec b2).2 = b2) → (∀ m ∈ l, b.get? m = some none) →
      (searchLoop rec mark comb l b best).2 = b := by
  intro l
  induction l with
  | nil =>
    intro b best _ _
    rfl
  | cons m rest ih =>
    intro b best hrec hl
    have hre : rec (setCell b m (some mark)) =
        ((rec (setCell b m (some mark))).1, setCell b m (some mark)) :=
      Prod.ext rfl (hrec (setCell b m (some mark)))
    rw [searchLoop, hre]
    dsimp only
    rw [setCell_restore (hl m (List.mem_cons_self m rest)) _]
    exact ih b _ hrec (fun k hk => hl k (List.mem_cons_of_mem m hk))

theorem minimaxS_board_eq :
    ∀ (fuel : Nat) (b : Board) (d : Nat) (m : Bool) (ai : Player),
      (minimaxS fuel b d m ai).2 = b := by
  intro fuel
  induction fuel with
  | zero =>
    intro b d m ai
    rfl
  | succ f ih =>
    intro b d m ai
    rw [minimaxS]
    split
    · rfl
    · split
      · rfl
      · split
        · exact searchLoop_board _ _ _ _ _ _ (fun b2 => ih b2 (d + 1) false ai)
            (fun k hk => mem_getAvailableMoves.mp hk)
        · exact searchLoop_board _ _ _ _ _ _ (fun b2 => ih b2 (d + 1) true ai)
            (fun k hk => mem_getAvailableMoves.mp hk)

/-- The probe loops of `findBestMove` return the first listed move whose
probe completes a line for `p`, and hand the board back unchanged. -/
theorem probeLoop_spec (p : Player) :
    ∀ (l : List Nat) (b : Board),
      (∀ m ∈ l, b.get? m = some none) →
      probeLoop p l b =
        (l.find? (fun m => decide (calculateWinner (setCell b m (some p)) = some p)), b) := by
  intro l
  induction l with
  | nil =>
    intro b _
    rfl
  | cons m rest ih =>
    intro b hl
    have hres := setCell_restore (hl m (List.mem_cons_self m rest)) (some p)
    by_cases hwin : calculateWinner (setCell b m (some p)) = some p
    · rw [probeLoop, if_pos hwin, hres]
      simp [List.find?, hwin]
    · rw [probeLoop, if_neg hwin, hres,
        ih b (fun k hk => hl k (List.mem_cons_of_mem m hk))]
      simp [List.find?, hwin]

theorem bestLoop_board (ai : Player) :
    ∀ (l : List Nat) (b : Board) (bv : Int) (bm : Nat),
      (∀ m ∈ l, b.get? m = some none) →
      (bestLoop ai l b bv bm).2 = b := by
  intro l
  induction l with
  | nil =>
    intro b bv bm _
    rfl
  | cons m rest ih =>
    intro b bv bm hl
    have hre : minimaxS FUEL (setCell b m (some ai)) 0 false ai =
        ((minimaxS FUEL (setCell b m (some ai)) 0 false ai).1, setCell b m (some ai)) :=
      Prod.ext rfl (minimaxS_board_eq FUEL (setCell b m (some ai)) 0 false ai)
    rw [bestLoop, hre]
    dsimp only
    rw [setCell_restore (hl m (List.mem_cons_self m rest)) _]
    split <;> exact ih b _ _ (fun k hk => hl k (List.mem_cons_of_mem m hk))

theorem bestLoop_mem (ai : Player) :
    ∀ (l : List Nat) (b : Board) (bv : Int) (bm : Nat),
      (bestLoop ai l b bv bm).1 = bm ∨ (bestLoop ai l b bv bm).1 ∈ l := by
  intro l
  induction l with
  | nil =>
    intro b bv bm
    exact Or.inl rfl
  | cons m rest ih =>
    intro b bv bm
    rw [bestLoop]
    rcases hre : minimaxS FUEL (setCell b m (some ai)) 0 false ai with ⟨v, b1⟩
    dsimp only
    split
    · rcases ih (setCell b1 m none) v m with h | h
      · rw [h]
        exact Or.inr (List.mem_cons_self m rest)
      · exact Or.inr (List.mem_cons_of_mem m h)
    · rcases ih (setCell b1 m none) bv bm with h | h
      · exact Or.inl h
      · exact Or.inr (List.mem_cons_of_mem m h)

/-! ## Claim C5: every mutation during the search is undone -/

/-- Claim C5: the board a caller observes after `minimax` returns, and
after `findBestMove` returns, is cell-for-cell the board passed in: the
in-place mutations of the search are all undone before return. -/
theorem search_preserves_board :
    (∀ (fuel : Nat) (b : Board) (d : Nat) (m : Bool) (ai : Player),
      (minimaxS fuel b d m ai).2 = b) ∧
    (∀ (b : Board) (ai : Player), (findBestMove b ai).2 = b) := by
  refine ⟨minimaxS_board_eq, ?_⟩
  intro b ai
  rw [findBestMove]
  split
  · rfl
  · have hav : ∀ m ∈ getAvailableMoves b, b.get? m = some none :=
      fun k hk => mem_getAvailableMoves.mp hk
    rw [probeLoop_spec ai (getAvailableMoves b) b hav]
    cases hf1 : List.find?
        (fun m => decide (calculateWinner (setCell b m (some ai)) = some ai))
        (getAvailableMoves b) with
    | some mv => rfl
    | none =>
      dsimp only
      rw [probeLoop_spec (opponentOf ai) (getAvailableMoves b) b hav]
      cases hf2 : List.find?
          (fun m => decide (calculateWinner (setCell b m (some (opponentOf ai))) =
            some (opponentOf ai)))
          (getAvailableMoves b) with
      | some mv => rfl
      | none =>
        dsimp only
        rw [Prod.map_snd]
        exact bestLoop_board ai (getAvailableMoves b) b negInf _ hav

/-! ## Claim C7: selectMove is total on non-full boards and legal -/

/-- Claim C7: `selectMove` returns `none` exactly when the board has no
empty cell, and any returned index is an empty cell of the input
board. -/
theorem selectMove_none_iff_and_legal (b : Board) (p : Player) (hw : wellFormed b) :
    (selectMove b p = none ↔ ∀ i, i < 9 → b.get? i ≠ some none) ∧
    (∀ m, selectMove b p = some m → b.get? m = some none) := by
  have hav : ∀ k ∈ getAvailableMoves b, b.get? k = some none :=
    fun k hk => mem_getAvailableMoves.mp hk
  rw [selectMove, findBestMove]
  split
  · rename_i hlen
    have hnil : getAvailableMoves b = [] := List.length_eq_zero.mp hlen
    constructor
    · rw [show (9 : Nat) = b.length from hw.symm]
      simpa using (getAvailableMoves_nil_iff b).mp hnil
    · intro m hm
      exact absurd hm (by simp)
  · rename_i hlen
    have hne : getAvailableMoves b ≠ [] := fun hnil => hlen (by rw [hnil]; rfl)
    have hsome : ∀ (r : Option Nat),
        (∀ k, r = some k → b.get? k = some none) →
        r ≠ none →
        ((r = none ↔ ∀ i, i < 9 → b.get? i ≠ some none) ∧
          (∀ k, r = some k → b.get? k = some none)) := by
      intro r hmem hnone
      refine ⟨⟨fun h => absurd h hnone, fun hall => ?_⟩, hmem⟩
      exfalso
      rcases List.exists_mem_of_ne_nil _ hne with ⟨k, hk⟩
      have hkc := mem_getAvailableMoves.mp hk
      exact hall k (by rw [← hw]; exact lt_length_of_get?_eq_some hkc) hkc
    rw [probeLoop_spec p (getAvailableMoves b) b hav]
    cases hf1 : List.find?
        (fun m => decide (calculateWinner (setCell b m (some p)) = some p))
        (getAvailableMoves b) with
    | some mv =>
      refine hsome _ (fun k hk => ?_) (by simp)
      rw [Option.some_inj] at hk
      subst hk
      exact hav _ (List.mem_of_find?_eq_some hf1)
    | none =>
      dsimp only
      rw [probeLoop_spec (opponentOf p) (getAvailableMoves b) b hav]
      cases hf2 : List.find?
          (fun m => decide (calculateWinner (setCell b m (some (opponentOf p))) =
            some (opponentOf p)))
          (getAvailableMoves b) with
      | some mv =>
        refine hsome _ (fun k hk => ?_) (by simp)
        rw [Option.some_inj] at hk
        subst hk
        exact hav _ (List.mem_of_find?_eq_some hf2)
      | none =>
        dsimp only
        refine hsome _ (fun k hk => ?_) (by simp [Prod.map_fst])
        rw [Prod.map_fst, Option.some_inj] at hk
        subst hk
        rcases bestLoop_mem p (getAvailableMoves b) b negInf
            ((getAvailableMoves b).headD 0) with h | h
        · rw [h]
          apply hav
          rcases hav2 : getAvailableMoves b with _ | ⟨a, rest⟩
          · exact absurd hav2 hne
          · exact List.headD_cons ▸ List.mem_cons_self a rest
        · exact hav _ h

/-! ## Claims C1 and C2: immediate win, immediate block -/

theorem find?_first {P : Nat → Bool} :
    ∀ (l : List Nat) (j : Nat), l.Pairwise (· < ·) → j ∈ l → P j = true →
      (∀ k, k ∈ l → k < j → P k = false) → l.find? P = some j := by
  intro l
  induction l with
  | nil =>
    intro j _ hj _ _
    cases hj
  | cons a rest ih =>
    intro j hp hj hPj hsmall
    by_cases haj : a = j
    · subst haj
      simp [List.find?, hPj]
    · have hjr : j ∈ rest := by
        rcases List.mem_cons.mp hj with h | h
        · exact absurd h.symm haj
        · exact h
      have haltj : a < j := (List.pairwise_cons.mp hp).1 j hjr
      have hPa : P a = false := hsmall a (List.mem_cons_self a rest) haltj
      simp only [List.find?, hPa]
      exact ih j (List.pairwise_cons.mp hp).2 hjr hPj
        (fun k hk hkj => hsmall k (List.mem_cons_of_mem a hk) hkj)

/-- Claim C1: on a well-formed board, if some empty cell completes a line
for mark `p`, `selectMove` returns the lowest-index such cell. -/
theorem selectMove_immediate_win (b : Board) (p : Player) (j : Nat)
    (_hw : wellFormed b)
    (hj : b.get? j = some none ∧ calculateWinner (setCell b j (some p)) = some p)
    (hmin : ∀ k, k < j →
      ¬ (b.get? k = some none ∧ calculateWinner (setCell b k (some p)) = some p)) :
    selectMove b p = some j := by
  have hav : ∀ k ∈ getAvailableMoves b, b.get? k = some none :=
    fun k hk => mem_getAvailableMoves.mp hk
  have hjav : j ∈ getAvailableMoves b := mem_getAvailableMoves.mpr hj.1
  have hne0 : (getAvailableMoves b).length ≠ 0 := by
    intro h0
    rw [List.length_eq_zero] at h0
    rw [h0] at hjav
    cases hjav
  rw [selectMove, findBestMove]
  split
  · rename_i h
    exact absurd h hne0
  · rw [probeLoop_spec p (getAvailableMoves b) b hav]
    have hfind : List.find?
        (fun m => decide (calculateWinner (setCell b m (some p)) = some p))
        (getAvailableMoves b) = some j := by
      apply find?_first _ j (getAvailableMoves_pairwise b) hjav (decide_eq_true hj.2)
      intro k hk hkj
      have hnot : ¬ calculateWinner (setCell b k (some p)) = some p := fun hc =>
        hmin k hkj ⟨hav k hk, hc⟩
      simpa using hnot
    rw [hfind]

/-- Witness for C1: the board from the spec, `[A,A,_,B,B,_,_,_,_]` with
aiMark = A, yields move 2. -/
theorem selectMove_immediate_win_witness :
    selectMove [some .X, some .X, none, some .O, some .O, none, none, none, none]
      Player.X = some 2 :=
  selectMove_immediate_win _ Player.X 2 (by decide) (by decide) (by decide)

/-- Claim C2: on a well-formed board where no empty cell gives `p` an
immediate win, if some empty cell would complete a line for the opponent,
`selectMove` returns the lowest-index such cell (the block). -/
theorem selectMove_immediate_block (b : Board) (p : Player) (j : Nat)
    (hw : wellFormed b)
    (hnw : ∀ i, i < 9 →
      ¬ (b.get? i = some none ∧ calculateWinner (setCell b i (some p)) = some p))
    (hj : b.get? j = some none ∧
      calculateWinner (setCell b j (some (opponentOf p))) = some (opponentOf p))
    (hmin : ∀ k, k < j → ¬ (b.get? k = some none ∧
      calculateWinner (setCell b k (some (opponentOf p))) = some (opponentOf p))) :
    selectMove b p = some j := by
  have hav : ∀ k ∈ getAvailableMoves b, b.get? k = some none :=
    fun k hk => mem_getAvailableMoves.mp hk
  have hjav : j ∈ getAvailableMoves b := mem_getAvailableMoves.mpr hj.1
  have hne0 : (getAvailableMoves b).length ≠ 0 := by
    intro h0
    rw [List.length_eq_zero] at h0
    rw [h0] at hjav
    cases hjav
  rw [selectMove, findBestMove]
  split
  · rename_i h
    exact absurd h hne0
  · rw [probeLoop_spec p (getAvailableMoves b) b hav]
    have hfind1 : List.find?
        (fun m => decide (calculateWinner (setCell b m (some p)) = some p))
        (getAvailableMoves b) = none := by
      rw [List.find?_eq_none]
      intro k hk
      have hkc := hav k hk
      have hk9 : k < 9 := by
        rw [← hw]
        exact lt_length_of_get?_eq_some hkc
      have hnot : ¬ calculateWinner (setCell b k (some p)) = some p := fun hc =>
        hnw k hk9 ⟨hkc, hc⟩
      simpa using hnot
    rw [hfind1]
    dsimp only
    rw [probeLoop_spec (opponentOf p) (getAvailableMoves b) b hav]
    have hfind2 : List.find?
        (fun m => decide (calculateWinner (setCell b m (some (opponentOf p))) =
          some (opponentOf p)))
        (getAvailableMoves b) = some j := by
      apply find?_first _ j (getAvailableMoves_pairwise b) hjav (decide_eq_true hj.2)
      intro k hk hkj
      have hnot : ¬ calculateWinner (setCell b k (some (opponentOf p))) =
          some (opponentOf p) := fun hc => hmin k hkj ⟨hav k hk, hc⟩
      simpa using hnot
    rw [hfind2]

/-- Witness for C2: the board from the spec, `[B,B,_,_,A,_,_,_,_]` with
aiMark = A, yields the blocking move 2. -/
theorem selectMove_immediate_block_witness :
    selectMove [some .O, some .O, none, none, some .X, none, none, none, none]
      Player.X = some 2 :=
  selectMove_immediate_block _ Player.X 2 (by decide) (by decide) (by decide) (by decide)

/-! ## Claim C4: the minimax fallback picks the first maximizing move -/

theorem foldl_max_acc_le (v : Nat → Int) :
    ∀ (l : List Nat) (acc : Int), acc ≤ l.foldl (fun a x => max a (v x)) acc := by
  intro l
  induction l with
  | nil =>
    intro acc
    exact le_refl acc
  | cons a rest ih =>
    intro acc
    exact le_trans (le_max_left acc (v a)) (ih (max acc (v a)))

theorem foldl_max_le (v : Nat → Int) (U : Int) :
    ∀ (l : List Nat) (acc : Int), acc ≤ U → (∀ x ∈ l, v x ≤ U) →
      l.foldl (fun a x => max a (v x)) acc ≤ U := by
  intro l
  induction l with
  | nil =>
    intro acc hacc _
    exact hacc
  | cons a rest ih =>
    intro acc hacc hv
    exact ih (max acc (v a))
      (max_le hacc (hv a (List.mem_cons_self a rest)))
      (fun x hx => hv x (List.mem_cons_of_mem a hx))

theorem foldl_max_ge (v : Nat → Int) (L : Int) :
    ∀ (l : List Nat) (acc : Int) (x : Nat), x ∈ l → L ≤ v x →
      L ≤ l.foldl (fun a y => max a (v y)) acc := by
  intro l
  induction l with
  | nil =>
    intro acc x hx
    cases hx
  | cons a rest ih =>
    intro acc x hx hL
    rcases List.mem_cons.mp hx with h | h
    · subst h
      exact le_trans (le_trans hL (le_max_right acc (v x)))
        (foldl_max_acc_le v rest (max acc (v x)))
    · exact ih (max acc (v a)) x h hL

theorem foldl_min_le_acc (v : Nat → Int) :
    ∀ (l : List Nat) (acc : Int), l.foldl (fun a x => min a (v x)) acc ≤ acc := by
  intro l
  induction l with
  | nil =>
    intro acc
    exact le_refl acc
  | cons a rest ih =>
    intro acc
    exact le_trans (ih (min acc (v a))) (min_le_left acc (v a))

theorem foldl_min_ge (v : Nat → Int) (L : Int) :
    ∀ (l : List Nat) (acc : Int), L ≤ acc → (∀ x ∈ l, L ≤ v x) →
      L ≤ l.foldl (fun a x => min a (v x)) acc := by
  intro l
  induction l with
  | nil =>
    intro acc hacc _
    exact hacc
  | cons a rest ih =>
    intro acc hacc hv
    exact ih (min acc (v a))
      (le_min hacc (hv a (List.mem_cons_self a rest)))
      (fun x hx => hv x (List.mem_cons_of_mem a hx))

theorem foldl_min_le (v : Nat → Int) (U : Int) :
    ∀ (l : List Nat) (acc : Int) (x : Nat), x ∈ l → v x ≤ U →
      l.foldl (fun a y => min a (v y)) acc ≤ U := by
  intro l
  induction l with
  | nil =>
    intro acc x hx
    cases hx
  | cons a rest ih =>
    intro acc x hx hU
    rcases List.mem_cons.mp hx with h | h
    · subst h
      exact le_trans (foldl_min_le_acc v rest (min acc (v x)))
        (le_trans (min_le_right acc (v x)) hU)
    · exact ih (min acc (v a)) x h hU

/-- The value component of the search loop is a fold of the children's
values (the board is restored at each step). -/
theorem searchLoop_value (rec : Board → Int × Board) (mark : Player)
    (comb : Int → Int → Int) :
    ∀ (l : List Nat) (b : Board) (best : Int),
      (∀ b2, (rec b2).2 = b2) → (∀ m ∈ l, b.get? m = some none) →
      (searchLoop rec mark comb l b best).1 =
        l.foldl (fun acc m => comb acc (rec (setCell b m (some mark))).1) best := by
  intro l
  induction l with
  | nil =>
    intro b best _ _
    rfl
  | cons m rest ih =>
    intro b best hrec hl
    have hre : rec (setCell b m (some mark)) =
        ((rec (setCell b m (some mark))).1, setCell b m (some mark)) :=
      Prod.ext rfl (hrec (setCell b m (some mark)))
    rw [searchLoop, hre]
    dsimp only
    rw [setCell_restore (hl m (List.mem_cons_self m rest)) _]
    rw [List.foldl_cons]
    exact ih b _ hrec (fun k hk => hl k (List.mem_cons_of_mem m hk))

/-- All minimax values are bounded by `± (10 + depth + fuel)`: the
`±Infinity` stand-ins `negInf`/`posInf` can never be returned, so `max`
and `min` against them behave exactly like against `±Infinity`. -/
theorem minimaxS_bounds :
    ∀ (fuel : Nat) (b : Board) (d : Nat) (m : Bool) (ai : Player),
      -10 - ((d : Int) + fuel) ≤ (minimaxS fuel b d m ai).1 ∧
      (minimaxS fuel b d m ai).1 ≤ 10 + ((d : Int) + fuel) := by
  intro fuel
  induction fuel with
  | zero =>
    intro b d m ai
    constructor
    · show -10 - ((d : Int) + 0) ≤ 0
      have : (0 : Int) ≤ (d : Int) := Int.ofNat_nonneg d
      omega
    · show (0 : Int) ≤ 10 + ((d : Int) + 0)
      have : (0 : Int) ≤ (d : Int) := Int.ofNat_nonneg d
      omega
  | succ f ih =>
    intro b d m ai
    have hd : (0 : Int) ≤ (d : Int) := Int.ofNat_nonneg d
    have hf : (0 : Int) ≤ (f : Int) := Int.ofNat_nonneg f
    rw [minimaxS]
    split
    · rename_i hterm
      rcases hterm with h10 | h10 <;> rw [h10]
      · rw [show Int.sign 10 = 1 by decide]
        constructor <;> dsimp only <;> push_cast <;> omega
      · rw [show Int.sign (-10) = -1 by decide]
        constructor <;> dsimp only <;> push_cast <;> omega
    · split
      · constructor <;> dsimp only <;> push_cast <;> omega
      · rename_i hterm hlen
        have hne : getAvailableMoves b ≠ [] := by
          intro h0
          rw [h0] at hlen
          exact hlen rfl
        rcases List.exists_mem_of_ne_nil _ hne with ⟨x, hx⟩
        have hav : ∀ k ∈ getAvailableMoves b, b.get? k = some none :=
          fun k hk => mem_getAvailableMoves.mp hk
        split
        · rw [searchLoop_value _ _ _ _ _ _
            (fun b2 => minimaxS_board_eq f b2 (d + 1) false ai) hav]
          constructor
          · apply foldl_max_ge _ _ _ negInf x hx
            have := (ih (setCell b x (some ai)) (d + 1) false ai).1
            push_cast at this ⊢
            omega
          · apply foldl_max_le
            · show negInf ≤ 10 + ((d : Int) + (f + 1))
              rw [negInf]
              omega
            · intro k _
              have := (ih (setCell b k (some ai)) (d + 1) false ai).2
              push_cast at this ⊢
              omega
        · rw [searchLoop_value _ _ _ _ _ _
            (fun b2 => minimaxS_board_eq f b2 (d + 1) true ai) hav]
          constructor
          · apply foldl_min_ge
            · show -10 - ((d : Int) + (f + 1)) ≤ posInf
              rw [posInf]
              omega
            · intro k _
              have := (ih (setCell b k (some (opponentOf ai))) (d + 1) true ai).1
              push_cast at this ⊢
              omega
          · apply foldl_min_le _ _ _ posInf x hx
            have := (ih (setCell b x (some (opponentOf ai))) (d + 1) true ai).2
            push_cast at this ⊢
            omega

theorem bestLoop_no_update (ai : Player) :
    ∀ (l : List Nat) (b : Board) (bv : Int) (bm : Nat),
      (∀ m ∈ l, b.get? m = some none) →
      (∀ k ∈ l, (minimaxS FUEL (setCell b k (some ai)) 0 false ai).1 ≤ bv) →
      (bestLoop ai l b bv bm).1 = bm := by
  intro l
  induction l with
  | nil =>
    intro b bv bm _ _
    rfl
  | cons m rest ih =>
    intro b bv bm hl hle
    have hre : minimaxS FUEL (setCell b m (some ai)) 0 false ai =
        ((minimaxS FUEL (setCell b m (some ai)) 0 false ai).1, setCell b m (some ai)) :=
      Prod.ext rfl (minimaxS_board_eq FUEL (setCell b m (some ai)) 0 false ai)
    rw [bestLoop, hre]
    dsimp only
    rw [if_neg (not_lt.mpr (hle m (List.mem_cons_self m rest)))]
    rw [setCell_restore (hl m (List.mem_cons_self m rest)) _]
    exact ih b bv bm (fun k hk => hl k (List.mem_cons_of_mem m hk))
      (fun k hk => hle k (List.mem_cons_of_mem m hk))

theorem bestLoop_first_argmax (ai : Player) (j : Nat) :
    ∀ (l : List Nat) (b : Board) (bv : Int) (bm : Nat),
      (∀ m ∈ l, b.get? m = some none) →
      l.Pairwise (· < ·) →
      j ∈ l →
      bv < (minimaxS FUEL (setCell b j (some ai)) 0 false ai).1 →
      (∀ k ∈ l, (minimaxS FUEL (setCell b k (some ai)) 0 false ai).1 ≤
        (minimaxS FUEL (setCell b j (some ai)) 0 false ai).1) →
      (∀ k ∈ l, k < j → (minimaxS FUEL (setCell b k (some ai)) 0 false ai).1 <
        (minimaxS FUEL (setCell b j (some ai)) 0 false ai).1) →
      (bestLoop ai l b bv bm).1 = j := by
  intro l
  induction l with
  | nil =>
    intro b bv bm _ _ hj
    cases hj
  | cons m rest ih =>
    intro b bv bm hl hp hj hbv hmax hfirst
    have hre : minimaxS FUEL (setCell b m (some ai)) 0 false ai =
        ((minimaxS FUEL (setCell b m (some ai)) 0 false ai).1, setCell b m (some ai)) :=
      Prod.ext rfl (minimaxS_board_eq FUEL (setCell b m (some ai)) 0 false ai)
    rw [bestLoop, hre]
    dsimp only
    rw [setCell_restore (hl m (List.mem_cons_self m rest)) _]
    by_cases hmj : m = j
    · subst hmj
      rw [if_pos hbv]
      exact bestLoop_no_update ai rest b _ m
        (fun k hk => hl k (List.mem_cons_of_mem m hk))
        (fun k hk => hmax k (List.mem_cons_of_mem m hk))
    · have hjr : j ∈ rest := by
        rcases List.mem_cons.mp hj with h | h
        · exact absurd h.symm hmj
        · exact h
      have hmltj : m < j := (List.pairwise_cons.mp hp).1 j hjr
      have hvm : (minimaxS FUEL (setCell b m (some ai)) 0 false ai).1 <
          (minimaxS FUEL (setCell b j (some ai)) 0 false ai).1 :=
        hfirst m (List.mem_cons_self m rest) hmltj
      split
      · exact ih b _ m
          (fun k hk => hl k (List.mem_cons_of_mem m hk))
          (List.pairwise_cons.mp hp).2 hjr hvm
          (fun k hk => hmax k (List.mem_cons_of_mem m hk))
          (fun k hk => hfirst k (List.mem_cons_of_mem m hk))
      · exact ih b bv bm
          (fun k hk => hl k (List.mem_cons_of_mem m hk))
          (List.pairwise_cons.mp hp).2 hjr hbv
          (fun k hk => hmax k (List.mem_cons_of_mem m hk))
          (fun k hk => hfirst k (List.mem_cons_of_mem m hk))

/- Core of claim C4, shared with the self-play development: the
fallback-argmax characterization of `selectMove`. -/
theorem selectMove_fallback_argmax_core (b : Board) (p : Player) (j : Nat)
    (hw : wellFormed b)
    (hnw : ∀ i, i < 9 →
      ¬ (b.get? i = some none ∧ calculateWinner (setCell b i (some p)) = some p))
    (hnb : ∀ i, i < 9 → ¬ (b.get? i = some none ∧
      calculateWinner (setCell b i (some (opponentOf p))) = some (opponentOf p)))
    (hj : b.get? j = some none)
    (hmax : ∀ k, k < 9 → b.get? k = some none →
      minimax (setCell b k (some p)) 0 false p ≤ minimax (setCell b j (some p)) 0 false p)
    (hfirst : ∀ k, k < 9 → b.get? k = some none → k < j →
      minimax (setCell b k (some p)) 0 false p < minimax (setCell b j (some p)) 0 false p) :
    selectMove b p = some j := by
  have hav : ∀ k ∈ getAvailableMoves b, b.get? k = some none :=
    fun k hk => mem_getAvailableMoves.mp hk
  have hk9 : ∀ k ∈ getAvailableMoves b, k < 9 := by
    intro k hk
    rw [← hw]
    exact lt_length_of_get?_eq_some (hav k hk)
  have hjav : j ∈ getAvailableMoves b := mem_getAvailableMoves.mpr hj
  have hne0 : (getAvailableMoves b).length ≠ 0 := by
    intro h0
    rw [List.length_eq_zero] at h0
    rw [h0] at hjav
    cases hjav
  rw [selectMove, findBestMove]
  split
  · rename_i h
    exact absurd h hne0
  · rw [probeLoop_spec p (getAvailableMoves b) b hav]
    have hfind1 : List.find?
        (fun m => decide (calculateWinner (setCell b m (some p)) = some p))
        (getAvailableMoves b) = none := by
      rw [List.find?_eq_none]
      intro k hk
      have hnot : ¬ calculateWinner (setCell b k (some p)) = some p := fun hc =>
        hnw k (hk9 k hk) ⟨hav k hk, hc⟩
      simpa using hnot
    rw [hfind1]
    dsimp only
    rw [probeLoop_spec (opponentOf p) (getAvailableMoves b) b hav]
    have hfind2 : List.find?
        (fun m => decide (calculateWinner (setCell b m (some (opponentOf p))) =
          some (opponentOf p)))
        (getAvailableMoves b) = none := by
      rw [List.find?_eq_none]
      intro k hk
      have hnot : ¬ calculateWinner (setCell b k (some (opponentOf p))) =
          some (opponentOf p) := fun hc => hnb k (hk9 k hk) ⟨hav k hk, hc⟩
      simpa using hnot
    rw [hfind2]
    dsimp only
    rw [Prod.map_fst]
    rw [Option.some_inj]
    apply bestLoop_first_argmax p j (getAvailableMoves b) b negInf _ hav
      (getAvailableMoves_pairwise b) hjav
    · have hlow := (minimaxS_bounds FUEL (setCell b j (some p)) 0 false p).1
      have hF : ((FUEL : Nat) : Int) = 10 := rfl
      rw [negInf]
      push_cast at hlow
      omega
    · intro k hk
      exact hmax k (hk9 k hk) (hav k hk)
    · intro k hk hkj
      exact hfirst k (hk9 k hk) (hav k hk) hkj

/-- Claim C4: when neither an immediate win nor an immediate block
exists, `selectMove` returns the lowest-index available move maximizing
`minimax(boardWithMove, 0, false, aiMark)`: iterating in ascending index
order with a strict `>` comparison, ties keep the earliest-seen move. -/
theorem selectMove_fallback_argmax (b : Board) (p : Player) (j : Nat)
    (hw : wellFormed b)
    (hnw : ∀ i, i < 9 →
      ¬ (b.get? i = some none ∧ calculateWinner (setCell b i (some p)) = some p))
    (hnb : ∀ i, i < 9 → ¬ (b.get? i = some none ∧
      calculateWinner (setCell b i (some (opponentOf p))) = some (opponentOf p)))
    (hj : b.get? j = some none)
    (hmax : ∀ k, k < 9 → b.get? k = some none →
      minimax (setCell b k (some p)) 0 false p ≤ minimax (setCell b j (some p)) 0 false p)
    (hfirst : ∀ k, k < 9 → b.get? k = some none → k < j →
      minimax (setCell b k (some p)) 0 false p < minimax (setCell b j (some p)) 0 false p) :
    selectMove b p = some j :=
  selectMove_fallback_argmax_core b p j hw hnw hnb hj hmax hfirst

/-- Witness for C4: an endgame with two empty cells whose minimax values
tie; the lower index wins the tie. -/
theorem selectMove_fallback_argmax_witness :
    selectMove [some .X, some .X, some .O, some .O, some .O, some .X,
      some .X, none, none] Player.O = some 7 :=
  selectMove_fallback_argmax _ Player.O 7 (by decide) (by decide) (by decide)
    (by decide) (by decide) (by decide)

/-- Witness for C7 at a concrete full board (draw position). -/
theorem selectMove_none_iff_and_legal_witness :
    (selectMove [some .X, some .O, some .X, some .X, some .O, some .O,
        some .O, some .X, some .X] Player.O = none ↔
      ∀ i, i < 9 →
        ([some .X, some .O, some .X, some .X, some .O, some .O,
          some .O, some .X, some .X] : Board).get? i ≠ some none) ∧
    (∀ m, selectMove [some .X, some .O, some .X, some .X, some .O, some .O,
        some .O, some .X, some .X] Player.O = some m →
      ([some .X, some .O, some .X, some .X, some .O, some .O,
        some .O, some .X, some .X] : Board).get? m = some none) :=
  selectMove_none_iff_and_legal _ Player.O (by decide)

/-! ## Claim C10: in AI mode the engine always plays O and X moves first -/

theorem countP_set_of_get? :
    ∀ {b : Board} {i : Nat}, b.get? i = some none → ∀ (p : Player),
      (setCell b i (some p)).countP (fun c => c.isSome) =
        b.countP (fun c => c.isSome) + 1 := by
  intro b
  induction b with
  | nil =>
    intro i h
    cases h
  | cons c rest ih =>
    intro i h p
    cases i with
    | zero =>
      rw [List.get?] at h
      rw [Option.some_inj] at h
      subst h
      rw [setCell, List.set]
      rw [List.countP_cons, List.countP_cons]
      simp
    | succ n =>
      rw [List.get?] at h
      rw [setCell, List.set]
      rw [List.countP_cons, List.countP_cons]
      have hrec := ih h p
      rw [setCell] at hrec
      rw [hrec]
      omega

theorem decide_succ_mod_two (n : Nat) :
    decide ((n + 1) % 2 = 0) = !decide (n % 2 = 0) := by
  rcases Nat.mod_two_eq_zero_or_one n with h | h <;> simp [Nat.add_mod, h]

/-- The session invariant: the board always has 9 cells, and `xIsNext`
holds exactly when an even number of cells is filled (X moves on even
plies — X first, strict alternation). -/
theorem reachable_invariant (s : AppState) (hs : Reachable s) :
    s.board.length = 9 ∧
    s.xIsNext = decide (s.board.countP (fun c => c.isSome) % 2 = 0) := by
  have hmove : ∀ (s2 : AppState) (i : Nat),
      s2.board.length = 9 ∧
        s2.xIsNext = decide (s2.board.countP (fun c => c.isSome) % 2 = 0) →
      (handleMove s2 i).board.length = 9 ∧
        (handleMove s2 i).xIsNext =
          decide ((handleMove s2 i).board.countP (fun c => c.isSome) % 2 = 0) := by
    intro s2 i ih
    rw [handleMove]
    split
    · exact ih
    · rename_i hcond
      push_neg at hcond
      constructor
      · rw [updateOutcome_board]
        dsimp only
        rw [setCell_length]
        exact ih.1
      · rw [updateOutcome_board, updateOutcome_xIsNext]
        dsimp only
        rw [countP_set_of_get? hcond.2 (currentPlayer s2), decide_succ_mod_two,
          ← ih.2]
  induction hs with
  | init => exact ⟨rfl, rfl⟩
  | click s2 i _ ih => exact hmove s2 i ih
  | ai s2 _ _ _ _ ih =>
    rw [aiStep]
    cases selectMove s2.board Player.O with
    | none => exact ih
    | some m => exact hmove s2 m ih
  | reset s2 _ _ => exact ⟨rfl, rfl⟩
  | modeChange s2 m _ _ => exact ⟨rfl, rfl⟩

/-- Claim C10: Mark-A (X) moves first in every session — initially, after
every reset and after every mode change; on the empty board of a
reachable state it is always X's turn, so the AI effect (which fires only
when it is O's turn) can never make the first move; and whenever the AI
effect does apply a move, the move comes from `selectMove(board, O)` and
places mark O: the automated player is always O and the human X. -/
theorem ai_plays_O_and_X_moves_first :
    (initialState.xIsNext = true) ∧
    (∀ s : AppState, (resetGame s).xIsNext = true) ∧
    (∀ (s : AppState) (m : Mode), (handleModeChange s m).xIsNext = true) ∧
    (∀ s : AppState, Reachable s → s.board = EMPTY_BOARD →
      currentPlayer s = Player.X) ∧
    (∀ s : AppState, Reachable s → s.board = EMPTY_BOARD →
      ¬ (s.mode = Mode.ai ∧ s.winner = none ∧ currentPlayer s = Player.O)) ∧
    (∀ s : AppState, Reachable s → s.winner = none →
      currentPlayer s = Player.O →
      ∀ m, selectMove s.board Player.O = some m →
        (aiStep s).board = setCell s.board m (some Player.O)) := by
  have hempty : ∀ s : AppState, Reachable s → s.board = EMPTY_BOARD →
      currentPlayer s = Player.X := by
    intro s hs hb
    have hinv := (reachable_invariant s hs).2
    rw [hb] at hinv
    rw [currentPlayer, hinv]
    rfl
  refine ⟨rfl, fun s => rfl, fun s m => rfl, hempty, ?_, ?_⟩
  · intro s hs hb hcontra
    rw [hempty s hs hb] at hcontra
    exact absurd hcontra.2.2 (by simp)
  · intro s hs hwin hcur m hsel
    have hlen := (reachable_invariant s hs).1
    have hlegal : s.board.get? m = some none :=
      (selectMove_none_iff_and_legal s.board Player.O hlen).2 m hsel
    rw [aiStep, hsel]
    dsimp only
    rw [handleMove, if_neg]
    · rw [updateOutcome_board]
      dsimp only
      rw [← hcur]
    · push_neg
      constructor
      · rw [gameOver, hwin]
        simp
      · exact hlegal

/-- Witness for C10: the initial session, a mode change to AI (X still
first, AI effect disabled on the empty board), and an AI move in a
reachable mid-game position that places O. -/
theorem ai_plays_O_and_X_moves_first_witness :
    (resetGame initialState).xIsNext = true ∧
    (handleModeChange initialState Mode.ai).xIsNext = true ∧
    currentPlayer (handleModeChange initialState Mode.ai) = Player.X ∧
    ¬ ((handleModeChange initialState Mode.ai).mode = Mode.ai ∧
      (handleModeChange initialState Mode.ai).winner = none ∧
      currentPlayer (handleModeChange initialState Mode.ai) = Player.O) ∧
    (aiStep (handleMove (handleMove (handleMove
        (handleModeChange initialState Mode.ai) 0) 4) 1)).board =
      setCell (handleMove (handleMove (handleMove
        (handleModeChange initialState Mode.ai) 0) 4) 1).board 2
        (some Player.O) := by
  obtain ⟨h1, h2, h3, h4, h5, h6⟩ := ai_plays_O_and_X_moves_first
  have hreach : Reachable (handleMove (handleMove (handleMove
      (handleModeChange initialState Mode.ai) 0) 4) 1) :=
    Reachable.click _ 1 (Reachable.click _ 4 (Reachable.click _ 0
      (Reachable.modeChange initialState Mode.ai Reachable.init)))
  refine ⟨h2 initialState, h3 initialState Mode.ai, ?_, ?_, ?_⟩
  · exact h4 _ (Reachable.modeChange initialState Mode.ai Reachable.init) rfl
  · exact h5 _ (Reachable.modeChange initialState Mode.ai Reachable.init) rfl
  · exact h6 _ hreach (by decide) (by decide) 2 (by decide)

/-! ## Terminal-case and loop unfolding lemmas for the search -/

theorem eq_opponentOf {w ai : Player} (h : w ≠ ai) : w = opponentOf ai := by
  cases w <;> cases ai <;> simp_all [opponentOf]

theorem evaluate_of_winner_some {b : Board} {ai w : Player}
    (h : calculateWinner b = some w) :
    evaluate b ai = if w = ai then 10 else -10 := by
  by_cases hw : w = ai
  · subst hw
    rw [evaluate]
    simp [h]
  · rw [evaluate]
    simp only [h]
    rw [if_neg (by simpa using hw), if_pos (by rw [← eq_opponentOf hw]), if_neg hw]

theorem evaluate_of_winner_none {b : Board} {ai : Player}
    (h : calculateWinner b = none) : evaluate b ai = 0 := by
  rw [evaluate]
  simp [h]

theorem minimaxS_succ_winner {f : Nat} {b : Board} {d : Nat} {m : Bool}
    {ai w : Player} (h : calculateWinner b = some w) :
    (minimaxS (f + 1) b d m ai).1 =
      if w = ai then 10 - (d : Int) else -10 + (d : Int) := by
  rw [minimaxS, evaluate_of_winner_some h]
  by_cases hw : w = ai
  · simp only [hw, if_true, if_pos rfl]
    norm_num
    rw [show Int.sign 10 = 1 by decide, mul_one]
  · simp only [hw, if_false]
    norm_num
    rw [show Int.sign 10 = 1 by decide, mul_one]

theorem minimaxS_succ_full {f : Nat} {b : Board} {d : Nat} {m : Bool}
    {ai : Player} (hw : calculateWinner b = none)
    (hav : getAvailableMoves b = []) :
    (minimaxS (f + 1) b d m ai).1 = 0 := by
  rw [minimaxS, evaluate_of_winner_none hw]
  simp [hav]

theorem minimaxS_succ_loop_max {f : Nat} {b : Board} {d : Nat} {ai : Player}
    (hw : calculateWinner b = none) (hne : getAvailableMoves b ≠ []) :
    (minimaxS (f + 1) b d true ai).1 =
      (searchLoop (fun b2 => minimaxS f b2 (d + 1) false ai) ai max
        (getAvailableMoves b) b negInf).1 := by
  rw [minimaxS, evaluate_of_winner_none hw]
  have hlen : ¬ ((getAvailableMoves b).length = 0) := fun h0 =>
    hne (List.length_eq_zero.mp h0)
  simp [hlen]

theorem minimaxS_succ_loop_min {f : Nat} {b : Board} {d : Nat} {ai : Player}
    (hw : calculateWinner b = none) (hne : getAvailableMoves b ≠ []) :
    (minimaxS (f + 1) b d false ai).1 =
      (searchLoop (fun b2 => minimaxS f b2 (d + 1) true ai) (opponentOf ai) min
        (getAvailableMoves b) b posInf).1 := by
  rw [minimaxS, evaluate_of_winner_none hw]
  have hlen : ¬ ((getAvailableMoves b).length = 0) := fun h0 =>
    hne (List.length_eq_zero.mp h0)
  simp [hlen]

/-! ## Soundness of the minimax bound certificate checkers -/

theorem certsFold_sound {chk : Cert → Board → Bool} {Q : Board → Prop}
    (hchk : ∀ c b2, chk c b2 = true → Q b2) :
    ∀ (cs : List Cert) (ms : List Nat) (b : Board) (mark : Player),
      certsFold chk cs ms b mark = true → ∀ m ∈ ms, Q (setCell b m (some mark)) := by
  intro cs
  induction cs with
  | nil =>
    intro ms b mark h m hm
    cases ms with
    | nil => cases hm
    | cons x xs => exact Bool.noConfusion h
  | cons c rest ih =>
    intro ms b mark h m hm
    cases ms with
    | nil => cases hm
    | cons x xs =>
      have h2 : (chk c (setCell b x (some mark)) && certsFold chk rest xs b mark) = true := h
      rw [Bool.and_eq_true] at h2
      rcases List.mem_cons.mp hm with he | ht
      · subst he
        exact hchk c _ h2.1
      · exact ih xs b mark h2.2 m ht

/-- A passing upper-bound certificate really bounds `minimaxS` from
above: at maximizing nodes every child is covered, at minimizing nodes
the minimum is at most the certified reply. -/
theorem checkUB_sound (ai : Player) :
    ∀ (f : Nat) (c : Cert) (b : Board) (d : Nat) (isMax : Bool) (v : Int),
      checkUB f c b d isMax ai v = true → (minimaxS f b d isMax ai).1 ≤ v := by
  intro f
  induction f with
  | zero =>
    intro c b d isMax v h
    exact Bool.noConfusion h
  | succ f ih =>
    intro c b d isMax v h
    rw [checkUB] at h
    cases hw : calculateWinner b with
    | some w =>
      rw [hw] at h
      rw [minimaxS_succ_winner hw]
      exact of_decide_eq_true h
    | none =>
      rw [hw] at h
      cases hav : getAvailableMoves b with
      | nil =>
        rw [hav] at h
        rw [minimaxS_succ_full hw hav]
        exact of_decide_eq_true h
      | cons m rest =>
        rw [hav] at h
        have hne : getAvailableMoves b ≠ [] := by
          rw [hav]
          exact List.cons_ne_nil m rest
        cases isMax with
        | true =>
          cases c with
          | leaf => exact Bool.noConfusion h
          | pick mv c2 => exact Bool.noConfusion h
          | branch cs =>
            have h2 : (decide (negInf ≤ v) &&
                certsFold (fun c2 b2 => checkUB f c2 b2 (d + 1) false ai v)
                  cs (m :: rest) b ai) = true := h
            rw [Bool.and_eq_true] at h2
            have hchild : ∀ k ∈ m :: rest,
                (minimaxS f (setCell b k (some ai)) (d + 1) false ai).1 ≤ v :=
              certsFold_sound (fun c2 b2 hc => ih c2 b2 (d + 1) false v hc)
                cs (m :: rest) b ai h2.2
            rw [minimaxS_succ_loop_max hw hne, hav]
            rw [searchLoop_value _ _ _ (m :: rest) b negInf
              (fun b2 => minimaxS_board_eq f b2 (d + 1) false ai)
              (fun k hk => mem_getAvailableMoves.mp (by rw [hav]; exact hk))]
            exact foldl_max_le _ v (m :: rest) negInf (of_decide_eq_true h2.1) hchild
        | false =>
          cases c with
          | leaf => exact Bool.noConfusion h
          | branch cs => exact Bool.noConfusion h
          | pick mv c2 =>
            have h2 : (decide (b.get? mv = some none) &&
                checkUB f c2 (setCell b mv (some (opponentOf ai))) (d + 1) true ai v) = true := h
            rw [Bool.and_eq_true] at h2
            rw [minimaxS_succ_loop_min hw hne]
            rw [searchLoop_value _ _ _ (getAvailableMoves b) b posInf
              (fun b2 => minimaxS_board_eq f b2 (d + 1) true ai)
              (fun k hk => mem_getAvailableMoves.mp hk)]
            exact foldl_min_le _ v (getAvailableMoves b) posInf mv
              (mem_getAvailableMoves.mpr (of_decide_eq_true h2.1))
              (ih c2 (setCell b mv (some (opponentOf ai))) (d + 1) true v h2.2)

/-- A passing lower-bound certificate really bounds `minimaxS` from
below. -/
theorem checkLB_sound (ai : Player) :
    ∀ (f : Nat) (c : Cert) (b : Board) (d : Nat) (isMax : Bool) (v : Int),
      checkLB f c b d isMax ai v = true → v ≤ (minimaxS f b d isMax ai).1 := by
  intro f
  induction f with
  | zero =>
    intro c b d isMax v h
    exact Bool.noConfusion h
  | succ f ih =>
    intro c b d isMax v h
    rw [checkLB] at h
    cases hw : calculateWinner b with
    | some w =>
      rw [hw] at h
      rw [minimaxS_succ_winner hw]
      exact of_decide_eq_true h
    | none =>
      rw [hw] at h
      cases hav : getAvailableMoves b with
      | nil =>
        rw [hav] at h
        rw [minimaxS_succ_full hw hav]
        exact of_decide_eq_true h
      | cons m rest =>
        rw [hav] at h
        have hne : getAvailableMoves b ≠ [] := by
          rw [hav]
          exact List.cons_ne_nil m rest
        cases isMax with
        | true =>
          cases c with
          | leaf => exact Bool.noConfusion h
          | branch cs => exact Bool.noConfusion h
          | pick mv c2 =>
            have h2 : (decide (b.get? mv = some none) &&
                checkLB f c2 (setCell b mv (some ai)) (d + 1) false ai v) = true := h
            rw [Bool.and_eq_true] at h2
            rw [minimaxS_succ_loop_max hw hne]
            rw [searchLoop_value _ _ _ (getAvailableMoves b) b negInf
              (fun b2 => minimaxS_board_eq f b2 (d + 1) false ai)
              (fun k hk => mem_getAvailableMoves.mp hk)]
            exact foldl_max_ge _ v (getAvailableMoves b) negInf mv
              (mem_getAvailableMoves.mpr (of_decide_eq_true h2.1))
              (ih c2 (setCell b mv (some ai)) (d + 1) false v h2.2)
        | false =>
          cases c with
          | leaf => exact Bool.noConfusion h
          | pick mv c2 => exact Bool.noConfusion h
          | branch cs =>
            have h2 : (decide (v ≤ posInf) &&
                certsFold (fun c2 b2 => checkLB f c2 b2 (d + 1) true ai v)
                  cs (m :: rest) b (opponentOf ai)) = true := h
            rw [Bool.and_eq_true] at h2
            have hchild : ∀ k ∈ m :: rest,
                v ≤ (minimaxS f (setCell b k (some (opponentOf ai))) (d + 1) true ai).1 :=
              certsFold_sound (fun c2 b2 hc => ih c2 b2 (d + 1) true v hc)
                cs (m :: rest) b (opponentOf ai) h2.2
            rw [minimaxS_succ_loop_min hw hne, hav]
            rw [searchLoop_value _ _ _ (m :: rest) b posInf
              (fun b2 => minimaxS_board_eq f b2 (d + 1) true ai)
              (fun k hk => mem_getAvailableMoves.mp (by rw [hav]; exact hk))]
            exact foldl_min_ge _ v (m :: rest) posInf (of_decide_eq_true h2.1) hchild

theorem minimax_le_of_cert {b : Board} {ai : Player} {v : Int} (c : Cert)
    (h : checkUB FUEL c b 0 false ai v = true) : minimax b 0 false ai ≤ v :=
  checkUB_sound ai FUEL c b 0 false v h

theorem le_minimax_of_cert {b : Board} {ai : Player} {v : Int} (c : Cert)
    (h : checkLB FUEL c b 0 false ai v = true) : v ≤ minimax b 0 false ai :=
  checkLB_sound ai FUEL c b 0 false v h

theorem minimax_eq_of_certs {b : Board} {ai : Player} {v : Int} (cu cl : Cert)
    (hu : checkUB FUEL cu b 0 false ai v = true)
    (hl : checkLB FUEL cl b 0 false ai v = true) : minimax b 0 false ai = v :=
  le_antisymm (minimax_le_of_cert cu hu) (le_minimax_of_cert cl hl)

/-! ## Claim C6: engine self-play ends in a draw

The nine moves of the self-play game.  Plies 0, 1 and 2 reach the
minimax fallback over a large game tree; their per-move values are
established from the certificates above.  Plies 3–6 are settled by the
win/block probe loops and plies 7–8 search only one or two cells, so
they evaluate directly. -/

set_option maxRecDepth 2000000
set_option maxHeartbeats 400000000

theorem ply0_u0 :
    minimax (setCell EMPTY_BOARD 0 (some Player.X)) 0 false Player.X ≤ 0 :=
  minimax_le_of_cert certP0U0 rfl

theorem ply0_v0 :
    minimax (setCell EMPTY_BOARD 0 (some Player.X)) 0 false Player.X = 0 :=
  minimax_eq_of_certs certP0U0 certP0L0 rfl rfl

theorem ply0_u1 :
    minimax (setCell EMPTY_BOARD 1 (some Player.X)) 0 false Player.X ≤ 0 :=
  minimax_le_of_cert certP0U1 rfl

theorem ply0_u2 :
    minimax (setCell EMPTY_BOARD 2 (some Player.X)) 0 false Player.X ≤ 0 :=
  minimax_le_of_cert certP0U2 rfl

theorem ply0_u3 :
    minimax (setCell EMPTY_BOARD 3 (some Player.X)) 0 false Player.X ≤ 0 :=
  minimax_le_of_cert certP0U3 rfl

theorem ply0_u4 :
    minimax (setCell EMPTY_BOARD 4 (some Player.X)) 0 false Player.X ≤ 0 :=
  minimax_le_of_cert certP0U4 rfl

theorem ply0_u5 :
    minimax (setCell EMPTY_BOARD 5 (some Player.X)) 0 false Player.X ≤ 0 :=
  minimax_le_of_cert certP0U5 rfl

theorem ply0_u6 :
    minimax (setCell EMPTY_BOARD 6 (some Player.X)) 0 false Player.X ≤ 0 :=
  minimax_le_of_cert certP0U6 rfl

theorem ply0_u7 :
    minimax (setCell EMPTY_BOARD 7 (some Player.X)) 0 false Player.X ≤ 0 :=
  minimax_le_of_cert certP0U7 rfl

theorem ply0_u8 :
    minimax (setCell EMPTY_BOARD 8 (some Player.X)) 0 false Player.X ≤ 0 :=
  minimax_le_of_cert certP0U8 rfl

theorem ply1_u1 :
    minimax (setCell plyB1 1 (some Player.O)) 0 false Player.O ≤ -1 :=
  minimax_le_of_cert certP1U1 rfl

theorem ply1_u2 :
    minimax (setCell plyB1 2 (some Player.O)) 0 false Player.O ≤ -1 :=
  minimax_le_of_cert certP1U2 rfl

theorem ply1_u3 :
    minimax (setCell plyB1 3 (some Player.O)) 0 false Player.O ≤ -1 :=
  minimax_le_of_cert certP1U3 rfl

theorem ply1_u4 :
    minimax (setCell plyB1 4 (some Player.O)) 0 false Player.O ≤ 0 :=
  minimax_le_of_cert certP1U4 rfl

theorem ply1_v4 :
    minimax (setCell plyB1 4 (some Player.O)) 0 false Player.O = 0 :=
  minimax_eq_of_certs certP1U4 certP1L4 rfl rfl

theorem ply1_u5 :
    minimax (setCell plyB1 5 (some Player.O)) 0 false Player.O ≤ 0 :=
  minimax_le_of_cert certP1U5 rfl

theorem ply1_u6 :
    minimax (setCell plyB1 6 (some Player.O)) 0 false Player.O ≤ 0 :=
  minimax_le_of_cert certP1U6 rfl

theorem ply1_u7 :
    minimax (setCell plyB1 7 (some Player.O)) 0 false Player.O ≤ 0 :=
  minimax_le_of_cert certP1U7 rfl

theorem ply1_u8 :
    minimax (setCell plyB1 8 (some Player.O)) 0 false Player.O ≤ 0 :=
  minimax_le_of_cert certP1U8 rfl

theorem ply2_u1 :
    minimax (setCell plyB2 1 (some Player.X)) 0 false Player.X ≤ 0 :=
  minimax_le_of_cert certP2U1 rfl

theorem ply2_v1 :
    minimax (setCell plyB2 1 (some Player.X)) 0 false Player.X = 0 :=
  minimax_eq_of_certs certP2U1 certP2L1 rfl rfl

theorem ply2_u2 :
    minimax (setCell plyB2 2 (some Player.X)) 0 false Player.X ≤ 0 :=
  minimax_le_of_cert certP2U2 rfl

theorem ply2_u3 :
    minimax (setCell plyB2 3 (some Player.X)) 0 false Player.X ≤ 0 :=
  minimax_le_of_cert certP2U3 rfl

theorem ply2_u5 :
    minimax (setCell plyB2 5 (some Player.X)) 0 false Player.X ≤ 0 :=
  minimax_le_of_cert certP2U5 rfl

theorem ply2_u6 :
    minimax (setCell plyB2 6 (some Player.X)) 0 false Player.X ≤ 0 :=
  minimax_le_of_cert certP2U6 rfl

theorem ply2_u7 :
    minimax (setCell plyB2 7 (some Player.X)) 0 false Player.X ≤ 0 :=
  minimax_le_of_cert certP2U7 rfl

theorem ply2_u8 :
    minimax (setCell plyB2 8 (some Player.X)) 0 false Player.X ≤ 0 :=
  minimax_le_of_cert certP2U8 rfl

theorem ply0_select : selectMove EMPTY_BOARD Player.X = some 0 := by
  apply selectMove_fallback_argmax_core EMPTY_BOARD Player.X 0 (by decide) (by decide)
    (by decide) (by decide)
  · intro k hk9 hke
    rw [ply0_v0]
    interval_cases k
    · exact le_of_eq ply0_v0
    · exact ply0_u1
    · exact ply0_u2
    · exact ply0_u3
    · exact ply0_u4
    · exact ply0_u5
    · exact ply0_u6
    · exact ply0_u7
    · exact ply0_u8
  · intro k _ _ hk0
    exact absurd hk0 (Nat.not_lt_zero k)

theorem ply1_select : selectMove plyB1 Player.O = some 4 := by
  apply selectMove_fallback_argmax_core plyB1 Player.O 4 (by decide) (by decide)
    (by decide) (by decide)
  · intro k hk9 hke
    rw [ply1_v4]
    interval_cases k
    · exact absurd hke (by decide)
    · exact le_trans ply1_u1 (by decide)
    · exact le_trans ply1_u2 (by decide)
    · exact le_trans ply1_u3 (by decide)
    · exact le_of_eq ply1_v4
    · exact ply1_u5
    · exact ply1_u6
    · exact ply1_u7
    · exact ply1_u8
  · intro k hk9 hke hk4
    rw [ply1_v4]
    interval_cases k
    · exact absurd hke (by decide)
    · exact lt_of_le_of_lt ply1_u1 (by decide)
    · exact lt_of_le_of_lt ply1_u2 (by decide)
    · exact lt_of_le_of_lt ply1_u3 (by decide)

theorem ply2_select : selectMove plyB2 Player.X = some 1 := by
  apply selectMove_fallback_argmax_core plyB2 Player.X 1 (by decide) (by decide)
    (by decide) (by decide)
  · intro k hk9 hke
    rw [ply2_v1]
    interval_cases k
    · exact absurd hke (by decide)
    · exact le_of_eq ply2_v1
    · exact ply2_u2
    · exact ply2_u3
    · exact absurd hke (by decide)
    · exact ply2_u5
    · exact ply2_u6
    · exact ply2_u7
    · exact ply2_u8
  · intro k hk9 hke hk1
    interval_cases k
    · exact absurd hke (by decide)

theorem ply3_select : selectMove plyB3 Player.O = some 2 := rfl

theorem ply4_select : selectMove plyB4 Player.X = some 6 := rfl

theorem ply5_select : selectMove plyB5 Player.O = some 3 := rfl

theorem ply6_select : selectMove plyB6 Player.X = some 5 := rfl

theorem ply7_select : selectMove plyB7 Player.O = some 7 := rfl

theorem ply8_select : selectMove plyB8 Player.X = some 8 := rfl

theorem selfPlay_step (n : Nat) (b : Board) (p : Player) (m : Nat)
    (hover : gameOverBoard b = false) (hsel : selectMove b p = some m) :
    selfPlay (n + 1) b p = selfPlay n (setCell b m (some p)) (opponentOf p) := by
  rw [selfPlay]
  rw [if_neg (by rw [hover]; exact Bool.false_ne_true)]
  rw [hsel]

/-- Claim C6: starting from the empty board with X (Mark-A) to move and
repeatedly applying the move `selectMove` returns for the player to move
until the game is terminal, the final board has no winner and every cell
is filled: engine self-play always ends in a draw. -/
theorem selfPlay_draw :
    calculateWinner (selfPlay 9 EMPTY_BOARD Player.X) = none ∧
    (selfPlay 9 EMPTY_BOARD Player.X).all (fun c => c.isSome) = true := by
  have e1 : selfPlay 9 EMPTY_BOARD Player.X = selfPlay 8 plyB1 Player.O :=
    selfPlay_step 8 EMPTY_BOARD Player.X 0 (by decide) ply0_select
  have e2 : selfPlay 8 plyB1 Player.O = selfPlay 7 plyB2 Player.X :=
    selfPlay_step 7 plyB1 Player.O 4 (by decide) ply1_select
  have e3 : selfPlay 7 plyB2 Player.X = selfPlay 6 plyB3 Player.O :=
    selfPlay_step 6 plyB2 Player.X 1 (by decide) ply2_select
  have e4 : selfPlay 6 plyB3 Player.O = selfPlay 5 plyB4 Player.X :=
    selfPlay_step 5 plyB3 Player.O 2 (by decide) ply3_select
  have e5 : selfPlay 5 plyB4 Player.X = selfPlay 4 plyB5 Player.O :=
    selfPlay_step 4 plyB4 Player.X 6 (by decide) ply4_select
  have e6 : selfPlay 4 plyB5 Player.O = selfPlay 3 plyB6 Player.X :=
    selfPlay_step 3 plyB5 Player.O 3 (by decide) ply5_select
  have e7 : selfPlay 3 plyB6 Player.X = selfPlay 2 plyB7 Player.O :=
    selfPlay_step 2 plyB6 Player.X 5 (by decide) ply6_select
  have e8 : selfPlay 2 plyB7 Player.O = selfPlay 1 plyB8 Player.X :=
    selfPlay_step 1 plyB7 Player.O 7 (by decide) ply7_select
  have e9 : selfPlay 1 plyB8 Player.X = selfPlay 0 plyB9 Player.O :=
    selfPlay_step 0 plyB8 Player.X 8 (by decide) ply8_select
  rw [e1, e2, e3, e4, e5, e6, e7, e8, e9]
  exact ⟨by decide, by decide⟩

end TicTacToe
